import Mathlib

/-!
Verification development for the ratio-computation logic of
`financial_ratios.py` (the Ratio Engine and its Formatter).

The embedding is shallow:

* a Python dict is an association list from `String` keys to values,
  preserving insertion order (`sfind` / `sinsert`);
* Snapshot Info is such a dict whose stored values may be null
  (`none` models a stored `None`);
* a price history is a date-ascending list of daily records, each carrying a
  closing price and a traded volume (every record has both fields, as the
  data model guarantees);
* a balance-sheet / income-statement table is a list of reporting-period
  columns, most recent first; each column maps line-item names to exact
  rational values.  `pandas.DataFrame.empty` holds iff the table has no rows
  or no columns; since all columns of a table share the row index, this is
  captured by inspecting the first column;
* the four artifacts hang off a `Stock`; an artifact equal to `none` models
  the corresponding accessor raising, which each derivation's
  `try ... except` turns into an empty mapping for that group;
* machine floats are modelled as exact rationals (`ℚ`).
-/

set_option maxRecDepth 8000

namespace FinRatios

/-- Lookup in a string-keyed association list (first match wins, as in a
Python dict whose keys are unique). -/
def sfind {α : Type} (k : String) : List (String × α) → Option α
  | [] => none
  | (k1, v) :: d => if k = k1 then some v else sfind k d

/-- Insertion of a fresh key into a string-keyed association list; models a
Python dict assignment `d[k] = v` (every key in this program is assigned at
most once per dict, so appending is exact). -/
def sinsert {α : Type} (d : List (String × α)) (k : String) (v : α) : List (String × α) :=
  d ++ [(k, v)]

/-- Snapshot Info: field name to stored value; a stored `none` models a
field that is present but null.  `Info.get` below collapses both shapes of
absence exactly as the Python idioms do. -/
abbrev Info := List (String × Option ℚ)

/-- A metric-group mapping: metric key to stored value.  Values can be null
(e.g. `valuation_ratios['pe_ratio'] = info.get('trailingPE')` stores `None`
when the field is missing). -/
abbrev Dict := List (String × Option ℚ)

/-- One reporting-period column of a financial-statement table: line-item
name to value. -/
abbrev Col := List (String × ℚ)

/-- A financial-statement table: columns (reporting periods), most recent
first. -/
abbrev Stmt := List Col

/-- The value of a Snapshot Info field when it is present and non-null.
Both Python idioms used in the source — `info.get(k)` and
`k in info and info[k] is not None` — yield the stored value exactly when it
is present and non-null, which is what this function returns. -/
def Info.get (info : Info) (k : String) : Option ℚ :=
  match sfind k info with
  | some (some v) => some v
  | _ => none

/-- Python `a or b` on optional numbers: `None` and `0` are falsy. -/
def pyOr (a b : Option ℚ) : Option ℚ :=
  match a with
  | some x => if x = 0 then b else some x
  | none => b

/-- Arithmetic mean, as `Series.mean()` on a nonempty series. -/
def mean (l : List ℚ) : ℚ := l.sum / l.length

/-- The last `n` entries of a list; `rolling(window=n).mean().iloc[-1]`
averages exactly these entries when the list has at least `n` of them. -/
def lastN (n : ℕ) (l : List ℚ) : List ℚ := l.drop (l.length - n)

/-- One daily record of the price history. -/
structure DailyRec where
  close : ℚ
  volume : ℚ
deriving DecidableEq

/-- Emptiness of a statement table: `DataFrame.empty` holds iff the table
has no rows or no columns; all columns share the row index, so the first
column is empty iff the table has no rows. -/
def Stmt.isEmpty : Stmt → Bool
  | [] => true
  | c :: _ => c.isEmpty

/-- The four data artifacts reachable from a `yfinance` ticker object.  A
`none` artifact models the accessor raising when the upstream source is
unreachable or malformed; the per-group `try ... except` blocks catch it. -/
structure Stock where
  info : Option Info
  hist : Option (List DailyRec)
  balance_sheet : Option Stmt
  income_stmt : Option Stmt

/-- The Ratio Report: the combined dictionary built by
`get_financial_ratios`. -/
structure Report where
  ticker : String
  price_metrics : Dict
  valuation_ratios : Dict
  profitability_ratios : Dict
  liquidity_ratios : Dict
  growth_rates : Dict

/-- `get_stock_data(ticker)`: wraps the provider handle; the
`try ... except: return None` appears as the `Option`-valued oracle
`fetch`. -/
def get_stock_data (fetch : String → Option Stock) (ticker : String) : Option Stock :=
  fetch ticker

/-- The snapshot-sourced part of `calculate_price_metrics` (source lines
25-29): `if info:` (dict truthiness) guards four direct copies. -/
def snapshotPriceMetrics (info : Info) : Dict :=
  if info.isEmpty then []
  else
    sinsert (sinsert (sinsert (sinsert []
      "current_price"
        (pyOr (Info.get info "currentPrice")
          (pyOr (Info.get info "regularMarketPrice") (Info.get info "previousClose"))))
      "52w_high" (Info.get info "fiftyTwoWeekHigh"))
      "52w_low" (Info.get info "fiftyTwoWeekLow"))
      "market_cap" (Info.get info "marketCap")

/-- `calculate_price_metrics` (source lines 15-55).  The outer
`try ... except: return {}` is the catch-all `none` branch.  `'Close' in
hist.columns` and `'Volume' in hist.columns` hold for every nonempty
history by the data model (each record carries both fields). -/
def price_metrics_body (info : Info) (hist : List DailyRec) : Dict :=
  let pm := snapshotPriceMetrics info
  match hist with
  | [] => pm
  | h :: t =>
    let closes := (h :: t).map DailyRec.close
    let current_price := closes.getLastD 0
    let pm :=
      if 252 ≤ (h :: t).length then
        if 0 < h.close then
          sinsert pm "price_change_1y" (some ((current_price / h.close - 1) * 100))
        else pm
      else pm
    let pm :=
      if 200 ≤ (h :: t).length then
        sinsert (sinsert pm
          "ma_50" (some (mean (lastN 50 closes))))
          "ma_200" (some (mean (lastN 200 closes)))
      else pm
    sinsert pm "avg_volume" (some (mean ((h :: t).map DailyRec.volume)))

/-- The whole of `calculate_price_metrics`: the body runs when both the
snapshot and the history accessors succeed; any access failure is caught by
the `try ... except` and yields the empty mapping. -/
def calculate_price_metrics (stock : Stock) : Dict :=
  match stock.info, stock.hist with
  | some info, some hist => price_metrics_body info hist
  | _, _ => []

/-- The body of `calculate_valuation_ratios` (source lines 60-77). -/
def valuation_body (info : Info) : Dict :=
  let v : Dict := []
  let v := sinsert v "pe_ratio" (Info.get info "trailingPE")
  let v := sinsert v "forward_pe" (Info.get info "forwardPE")
  let v := sinsert v "pb_ratio" (Info.get info "priceToBook")
  let v := sinsert v "ps_ratio" (Info.get info "priceToSalesTrailing12Months")
  let v := sinsert v "peg_ratio" (Info.get info "pegRatio")
  let v := sinsert v "ev_to_ebitda" (Info.get info "enterpriseToEbitda")
  match Info.get info "dividendYield" with
  | some x => sinsert v "dividend_yield" (some (x * 100))
  | none =>
    match Info.get info "trailingAnnualDividendYield" with
    | some y => sinsert v "dividend_yield" (some (y * 100))
    | none => v

/-- `calculate_valuation_ratios` (source lines 57-80): the body runs when
the snapshot accessor succeeds; a failure is caught by the `try ... except`
and yields the empty mapping. -/
def calculate_valuation_ratios (stock : Stock) : Dict :=
  match stock.info with
  | some info => valuation_body info
  | none => []

/-- The ROE block of `calculate_profitability_ratios` (source lines
97-102). -/
def roeStep (latest_bs latest_is : Col) (pr : Dict) : Dict :=
  match sfind "totalStockholderEquity" latest_bs, sfind "netIncome" latest_is with
  | some equity, some net_income =>
    if equity ≠ 0 then sinsert pr "roe" (some (net_income / equity * 100)) else pr
  | _, _ => pr

/-- The ROA block of `calculate_profitability_ratios` (source lines
104-109). -/
def roaStep (latest_bs latest_is : Col) (pr : Dict) : Dict :=
  match sfind "totalAssets" latest_bs, sfind "netIncome" latest_is with
  | some assets, some net_income =>
    if assets ≠ 0 then sinsert pr "roa" (some (net_income / assets * 100)) else pr
  | _, _ => pr

/-- The margins block of `calculate_profitability_ratios` (source lines
111-122). -/
def marginsStep (latest_is : Col) (pr : Dict) : Dict :=
  match sfind "totalRevenue" latest_is with
  | some revenue =>
    if revenue ≠ 0 then
      let pr :=
        match sfind "grossProfit" latest_is with
        | some gp => sinsert pr "gross_margin" (some (gp / revenue * 100))
        | none => pr
      let pr :=
        match sfind "operatingIncome" latest_is with
        | some oi => sinsert pr "operating_margin" (some (oi / revenue * 100))
        | none => pr
      match sfind "netIncome" latest_is with
      | some ni => sinsert pr "profit_margin" (some (ni / revenue * 100))
      | none => pr
    else pr
  | none => pr

/-- Statement-derived profitability ratios (source lines 97-122), applied to
the most recent balance-sheet and income-statement columns, in source
order. -/
def stmtProfitability (latest_bs latest_is : Col) : Dict :=
  marginsStep latest_is (roaStep latest_bs latest_is (roeStep latest_bs latest_is []))

/-- One snapshot-fallback block of `calculate_profitability_ratios`
(source lines 125-138): `if field in info and info[field] is not None and
key not in profitability_ratios: profitability_ratios[key] =
info[field] * 100`.  The five blocks in the source are this shape at the
five (field, key) pairs. -/
def fallbackStep (info : Info) (field key : String) (pr : Dict) : Dict :=
  match Info.get info field with
  | some v => if (sfind key pr).isNone then sinsert pr key (some (v * 100)) else pr
  | none => pr

/-- The snapshot-fallback stage of `calculate_profitability_ratios`
(source lines 125-138), in source order. -/
def applyProfitFallbacks (info : Info) (pr : Dict) : Dict :=
  fallbackStep info "profitMargins" "profit_margin"
    (fallbackStep info "operatingMargins" "operating_margin"
      (fallbackStep info "grossMargins" "gross_margin"
        (fallbackStep info "returnOnAssets" "roa"
          (fallbackStep info "returnOnEquity" "roe" pr))))

/-- The body of `calculate_profitability_ratios` (source lines 85-139). -/
def profitability_body (info : Info) (bs ist : Stmt) : Dict :=
  let pr : Dict :=
    if Stmt.isEmpty bs = false ∧ Stmt.isEmpty ist = false then
      stmtProfitability (bs.headD []) (ist.headD [])
    else []
  applyProfitFallbacks info pr

/-- `calculate_profitability_ratios` (source lines 82-143): the body runs
when the snapshot, balance-sheet and income-statement accessors all
succeed; any access failure is caught by the `try ... except` and yields
the empty mapping. -/
def calculate_profitability_ratios (stock : Stock) : Dict :=
  match stock.info, stock.balance_sheet, stock.income_stmt with
  | some info, some bs, some ist => profitability_body info bs ist
  | _, _, _ => []

/-- The current-ratio block of `calculate_liquidity_ratios` (source lines
155-160). -/
def currentRatioStep (latest_bs : Col) (lr : Dict) : Dict :=
  match sfind "totalCurrentAssets" latest_bs, sfind "totalCurrentLiabilities" latest_bs with
  | some ca, some cl =>
    if cl ≠ 0 then sinsert lr "current_ratio" (some (ca / cl)) else lr
  | _, _ => lr

/-- The quick-ratio block of `calculate_liquidity_ratios` (source lines
162-168). -/
def quickRatioStep (latest_bs : Col) (lr : Dict) : Dict :=
  match sfind "totalCurrentAssets" latest_bs, sfind "inventory" latest_bs,
      sfind "totalCurrentLiabilities" latest_bs with
  | some ca, some inv, some cl =>
    if cl ≠ 0 then sinsert lr "quick_ratio" (some ((ca - inv) / cl)) else lr
  | _, _, _ => lr

/-- The debt-to-equity block of `calculate_liquidity_ratios` (source lines
170-175). -/
def debtEquityStep (latest_bs : Col) (lr : Dict) : Dict :=
  match sfind "totalLiabilities" latest_bs, sfind "totalStockholderEquity" latest_bs with
  | some td, some equity =>
    if equity ≠ 0 then sinsert lr "debt_to_equity" (some (td / equity)) else lr
  | _, _ => lr

/-- The interest-coverage block of `calculate_liquidity_ratios` (source
lines 177-184), guarded by the income statement being nonempty. -/
def interestCoverageStep (ist : Stmt) (lr : Dict) : Dict :=
  if Stmt.isEmpty ist = false then
    let latest_is := ist.headD []
    match sfind "operatingIncome" latest_is, sfind "interestExpense" latest_is with
    | some oi, some ie =>
      if ie ≠ 0 then sinsert lr "interest_coverage" (some (oi / |ie|)) else lr
    | _, _ => lr
  else lr

/-- The body of `calculate_liquidity_ratios` (source lines 148-186),
blocks in source order. -/
def liquidity_body (bs ist : Stmt) : Dict :=
  if Stmt.isEmpty bs = false then
    let latest_bs := bs.headD []
    interestCoverageStep ist
      (debtEquityStep latest_bs (quickRatioStep latest_bs (currentRatioStep latest_bs [])))
  else []

/-- `calculate_liquidity_ratios` (source lines 145-189): the body runs when
the balance-sheet and income-statement accessors succeed (both are read
before any ratio is derived); any access failure is caught by the
`try ... except` and yields the empty mapping. -/
def calculate_liquidity_ratios (stock : Stock) : Dict :=
  match stock.balance_sheet, stock.income_stmt with
  | some bs, some ist => liquidity_body bs ist
  | _, _ => []

/-- One growth-rate block of `calculate_growth_rates` (source lines
201-220): look the line item up in the current and the prior period and,
when the prior value is nonzero, record `((current / prior) - 1) * 100`.
The three blocks in the source are this shape at
(`totalRevenue`, `revenue_growth`), (`netIncome`, `earnings_growth`) and
(`ebitda`, `ebitda_growth`). -/
def growthStep (item key : String) (current_year prev_year : Col) (gr : Dict) : Dict :=
  match sfind item current_year, sfind item prev_year with
  | some cur, some prev =>
    if prev ≠ 0 then sinsert gr key (some ((cur / prev - 1) * 100)) else gr
  | _, _ => gr

/-- The body of `calculate_growth_rates` (source lines 194-222), blocks in
source order; `income_stmt.shape[1]` is the number of reporting-period
columns. -/
def growth_body (ist : Stmt) : Dict :=
  if Stmt.isEmpty ist = false ∧ 2 ≤ ist.length then
    let current_year := ist.headD []
    let prev_year := (ist.drop 1).headD []
    growthStep "ebitda" "ebitda_growth" current_year prev_year
      (growthStep "netIncome" "earnings_growth" current_year prev_year
        (growthStep "totalRevenue" "revenue_growth" current_year prev_year []))
  else []

/-- `calculate_growth_rates` (source lines 191-225): the body runs when the
income-statement accessor succeeds; a failure is caught by the
`try ... except` and yields the empty mapping. -/
def calculate_growth_rates (stock : Stock) : Dict :=
  match stock.income_stmt with
  | some ist => growth_body ist
  | none => []

/-- `get_financial_ratios` (source lines 227-248). -/
def get_financial_ratios (fetch : String → Option Stock) (ticker : String) : Option Report :=
  match get_stock_data fetch ticker with
  | none => none
  | some stock =>
    some
      { ticker := ticker
        price_metrics := calculate_price_metrics stock
        valuation_ratios := calculate_valuation_ratios stock
        profitability_ratios := calculate_profitability_ratios stock
        liquidity_ratios := calculate_liquidity_ratios stock
        growth_rates := calculate_growth_rates stock }

/-- Python-dict `.get`: the stored value when the key is present (possibly a
stored null), and `None` when the key is absent. -/
def Dict.get (d : Dict) (k : String) : Option ℚ :=
  match sfind k d with
  | some v => v
  | none => none

/-- Two-decimal fixed-point rendering of a rational, modelling the
`f"{value:.2f}"` format.  Python formats the underlying float rounding to
the nearest hundredth; exact half-cent ties (ties-to-even in Python) and
the `-0.00` edge are rendered round-half-up here, which no claim relies
on. -/
def fmt2 (v : ℚ) : String :=
  let n : ℤ := (v * 100 + 1 / 2).floor
  let m : ℕ := n.natAbs
  let sign := if n < 0 then "-" else ""
  sign ++ toString (m / 100) ++ "." ++ (if m % 100 < 10 then "0" else "") ++ toString (m % 100)

/-- `format_value` (source lines 250-267).  `value` is what Python receives
from `dict.get`: `none` models both `None` and the NaN guard (NaN has no
rational counterpart).  The `value == ''` test and the final `str(value)`
branch concern non-numeric values, which the engine never stores.  The
`prefix` parameter is named `pfx` (`prefix` is a Lean keyword). -/
def format_value (value : Option ℚ) (is_percentage : Bool) (pfx : String) : String :=
  match value with
  | none => "N/A"
  | some v =>
    if is_percentage then fmt2 v ++ "%"
    else if pfx = "$" ∧ (1000000000 : ℚ) ≤ v then pfx ++ fmt2 (v / 1000000000) ++ "B"
    else if pfx = "$" ∧ (1000000 : ℚ) ≤ v then pfx ++ fmt2 (v / 1000000) ++ "M"
    else if pfx = "$" then pfx ++ fmt2 v
    else fmt2 v

/-- The list of lines assembled by `format_financial_ratios_summary`
(source lines 281-343), in source order; the rendered text joins them with
newlines. -/
def summaryLines (r : Report) : List String :=
  let pm := r.price_metrics
  let vr := r.valuation_ratios
  let pr := r.profitability_ratios
  let lr := r.liquidity_ratios
  let gr := r.growth_rates
  let sep := String.mk (List.replicate 53 '=')
  let dash := String.mk (List.replicate 53 '-')
  let low_52w := format_value (Dict.get pm "52w_low") false "$"
  let high_52w := format_value (Dict.get pm "52w_high") false "$"
  [sep,
   "FINANCIAL RATIOS SUMMARY FOR " ++ r.ticker,
   sep,
   "",
   "PRICE METRICS:",
   dash,
   "Current Price: " ++ format_value (Dict.get pm "current_price") false "$",
   (if low_52w ≠ "N/A" ∧ high_52w ≠ "N/A" then
      "52-Week Range: " ++ low_52w ++ " - " ++ high_52w
    else "52-Week Range: N/A"),
   "Price Change (1Y): " ++ format_value (Dict.get pm "price_change_1y") true "$",
   "Market Cap: " ++ format_value (Dict.get pm "market_cap") false "$",
   "",
   "VALUATION RATIOS:",
   dash,
   "P/E Ratio: " ++ format_value (Dict.get vr "pe_ratio") false "",
   "Forward P/E: " ++ format_value (Dict.get vr "forward_pe") false "",
   "P/B Ratio: " ++ format_value (Dict.get vr "pb_ratio") false "",
   "P/S Ratio: " ++ format_value (Dict.get vr "ps_ratio") false "",
   "PEG Ratio: " ++ format_value (Dict.get vr "peg_ratio") false "",
   "EV/EBITDA: " ++ format_value (Dict.get vr "ev_to_ebitda") false "",
   "Dividend Yield: " ++ format_value (Dict.get vr "dividend_yield") true "",
   "",
   "PROFITABILITY RATIOS:",
   dash,
   "Return on Equity (ROE): " ++ format_value (Dict.get pr "roe") true "",
   "Return on Assets (ROA): " ++ format_value (Dict.get pr "roa") true "",
   "Gross Margin: " ++ format_value (Dict.get pr "gross_margin") true "",
   "Operating Margin: " ++ format_value (Dict.get pr "operating_margin") true "",
   "Profit Margin: " ++ format_value (Dict.get pr "profit_margin") true "",
   "",
   "LIQUIDITY & SOLVENCY:",
   dash,
   "Current Ratio: " ++ format_value (Dict.get lr "current_ratio") false "",
   "Quick Ratio: " ++ format_value (Dict.get lr "quick_ratio") false "",
   "Debt-to-Equity: " ++ format_value (Dict.get lr "debt_to_equity") false "",
   "Interest Coverage: " ++ format_value (Dict.get lr "interest_coverage") false "",
   "",
   "GROWTH RATES (YoY):",
   dash,
   "Revenue Growth: " ++ format_value (Dict.get gr "revenue_growth") true "",
   "Earnings Growth: " ++ format_value (Dict.get gr "earnings_growth") true "",
   "EBITDA Growth: " ++ format_value (Dict.get gr "ebitda_growth") true "",
   "",
   sep]

/-- `format_financial_ratios_summary` (source lines 269-345); its argument
is the (possibly absent) result of `get_financial_ratios`. -/
def format_financial_ratios_summary (ratios : Option Report) : String :=
  match ratios with
  | none => "Could not generate summary. No data available."
  | some r => String.intercalate "\n" (summaryLines r)

/-- The value the snapshot-fallback stage of
`calculate_profitability_ratios` supplies for a metric that the statements
did not populate: the snapshot field times 100 when present and non-null,
absent otherwise. -/
def snapshotFallback (info : Info) (field : String) : Option (Option ℚ) :=
  match Info.get info field with
  | some v => some (some (v * 100))
  | none => none

/-- A 252-record price history rising from a first close of 100 to a last
close of 150 (the spec's one-year price-change example). -/
def histUp : List DailyRec :=
  ⟨100, 1000⟩ :: (List.replicate 250 ⟨120, 1000⟩ ++ [⟨150, 1000⟩])

/-- A 252-record price history whose first close is zero. -/
def histZero : List DailyRec :=
  ⟨0, 1000⟩ :: List.replicate 251 ⟨10, 1000⟩

/-- A stock whose balance sheet reports zero equity while the snapshot
carries a precomputed return-on-equity field of 0.2. -/
def stockZeroEquity : Stock :=
  ⟨some [("returnOnEquity", some (1 / 5))], none,
    some [[("totalStockholderEquity", 0)]], some [[("netIncome", 10)]]⟩

/-- A stock with an empty snapshot, a zero first close, and zero statement
denominators everywhere (equity, current liabilities, interest expense,
current and prior revenue). -/
def stockAllZero : Stock :=
  ⟨some [], some histZero,
    some [[("totalStockholderEquity", 0), ("totalCurrentLiabilities", 0)]],
    some [[("interestExpense", 0), ("totalRevenue", 0)], [("totalRevenue", 0)]]⟩

/-- A stock whose balance sheet lacks the equity line item while the
snapshot carries a precomputed return-on-equity field of 0.15. -/
def stockRoeFallback : Stock :=
  ⟨some [("returnOnEquity", some (3 / 20))], none,
    some [[("totalAssets", 1)]], some [[("netIncome", 5)]]⟩

/-! ### Association-list lemmas -/

theorem sfind_sinsert_of_ne {α : Type} {k k1 : String} (h : k ≠ k1)
    (d : List (String × α)) (v : α) :
    sfind k (sinsert d k1 v) = sfind k d := by
  induction d with
  | nil => simp [sinsert, sfind, h]
  | cons a d ih =>
    obtain ⟨k2, v2⟩ := a
    simp only [sinsert, List.cons_append, sfind] at ih ⊢
    split
    · rfl
    · exact ih

theorem sfind_sinsert_self {α : Type} {k : String} {d : List (String × α)}
    (h : sfind k d = none) (v : α) :
    sfind k (sinsert d k v) = some v := by
  induction d with
  | nil => simp [sinsert, sfind]
  | cons a d ih =>
    obtain ⟨k2, v2⟩ := a
    simp only [sinsert, List.cons_append, sfind] at h ih ⊢
    split
    · simp_all
    · simp_all

/-! ### Snapshot-fallback lemmas for the profitability group -/

theorem sfind_fallbackStep_of_ne (k key : String) (h : k ≠ key)
    (info : Info) (field : String) (pr : Dict) :
    sfind k (fallbackStep info field key pr) = sfind k pr := by
  unfold fallbackStep
  split
  · split
    · exact sfind_sinsert_of_ne h pr _
    · rfl
  · rfl

theorem sfind_fallbackStep_of_some {key : String} {pr : Dict} {w : Option ℚ}
    (h : sfind key pr = some w) (info : Info) (field : String) :
    sfind key (fallbackStep info field key pr) = some w := by
  unfold fallbackStep
  split
  · simp [h]
  · exact h

theorem sfind_fallbackStep_of_none {key : String} {pr : Dict}
    (h : sfind key pr = none) (info : Info) (field : String) :
    sfind key (fallbackStep info field key pr) = snapshotFallback info field := by
  unfold fallbackStep snapshotFallback
  split
  · next v heq => simp [h, sfind_sinsert_self h, heq]
  · next heq => simp [h, heq]

theorem sfind_roe_applyProfitFallbacks_of_some {pr : Dict} {w : Option ℚ}
    (h : sfind "roe" pr = some w) (info : Info) :
    sfind "roe" (applyProfitFallbacks info pr) = some w := by
  unfold applyProfitFallbacks
  rw [sfind_fallbackStep_of_ne "roe" "profit_margin" (by decide),
    sfind_fallbackStep_of_ne "roe" "operating_margin" (by decide),
    sfind_fallbackStep_of_ne "roe" "gross_margin" (by decide),
    sfind_fallbackStep_of_ne "roe" "roa" (by decide)]
  exact sfind_fallbackStep_of_some h info _

theorem sfind_roe_applyProfitFallbacks_of_none {pr : Dict}
    (h : sfind "roe" pr = none) (info : Info) :
    sfind "roe" (applyProfitFallbacks info pr) = snapshotFallback info "returnOnEquity" := by
  unfold applyProfitFallbacks
  rw [sfind_fallbackStep_of_ne "roe" "profit_margin" (by decide),
    sfind_fallbackStep_of_ne "roe" "operating_margin" (by decide),
    sfind_fallbackStep_of_ne "roe" "gross_margin" (by decide),
    sfind_fallbackStep_of_ne "roe" "roa" (by decide)]
  exact sfind_fallbackStep_of_none h info _

theorem sfind_roa_applyProfitFallbacks_of_some {pr : Dict} {w : Option ℚ}
    (h : sfind "roa" pr = some w) (info : Info) :
    sfind "roa" (applyProfitFallbacks info pr) = some w := by
  unfold applyProfitFallbacks
  have h1 := sfind_fallbackStep_of_ne "roa" "roe" (by decide) info "returnOnEquity" pr
  rw [sfind_fallbackStep_of_ne "roa" "profit_margin" (by decide),
    sfind_fallbackStep_of_ne "roa" "operating_margin" (by decide),
    sfind_fallbackStep_of_ne "roa" "gross_margin" (by decide),
    sfind_fallbackStep_of_some (h1.trans h) info _]

theorem sfind_roa_applyProfitFallbacks_of_none {pr : Dict}
    (h : sfind "roa" pr = none) (info : Info) :
    sfind "roa" (applyProfitFallbacks info pr) = snapshotFallback info "returnOnAssets" := by
  unfold applyProfitFallbacks
  have h1 := sfind_fallbackStep_of_ne "roa" "roe" (by decide) info "returnOnEquity" pr
  rw [sfind_fallbackStep_of_ne "roa" "profit_margin" (by decide),
    sfind_fallbackStep_of_ne "roa" "operating_margin" (by decide),
    sfind_fallbackStep_of_ne "roa" "gross_margin" (by decide),
    sfind_fallbackStep_of_none (h1.trans h) info _]

theorem sfind_gross_applyProfitFallbacks_of_some {pr : Dict} {w : Option ℚ}
    (h : sfind "gross_margin" pr = some w) (info : Info) :
    sfind "gross_margin" (applyProfitFallbacks info pr) = some w := by
  unfold applyProfitFallbacks
  have h1 := sfind_fallbackStep_of_ne "gross_margin" "roe" (by decide) info "returnOnEquity" pr
  have h2 := sfind_fallbackStep_of_ne "gross_margin" "roa" (by decide) info "returnOnAssets"
    (fallbackStep info "returnOnEquity" "roe" pr)
  rw [sfind_fallbackStep_of_ne "gross_margin" "profit_margin" (by decide),
    sfind_fallbackStep_of_ne "gross_margin" "operating_margin" (by decide),
    sfind_fallbackStep_of_some (h2.trans (h1.trans h)) info _]

theorem sfind_gross_applyProfitFallbacks_of_none {pr : Dict}
    (h : sfind "gross_margin" pr = none) (info : Info) :
    sfind "gross_margin" (applyProfitFallbacks info pr) = snapshotFallback info "grossMargins" := by
  unfold applyProfitFallbacks
  have h1 := sfind_fallbackStep_of_ne "gross_margin" "roe" (by decide) info "returnOnEquity" pr
  have h2 := sfind_fallbackStep_of_ne "gross_margin" "roa" (by decide) info "returnOnAssets"
    (fallbackStep info "returnOnEquity" "roe" pr)
  rw [sfind_fallbackStep_of_ne "gross_margin" "profit_margin" (by decide),
    sfind_fallbackStep_of_ne "gross_margin" "operating_margin" (by decide),
    sfind_fallbackStep_of_none (h2.trans (h1.trans h)) info _]

theorem sfind_operating_applyProfitFallbacks_of_some {pr : Dict} {w : Option ℚ}
    (h : sfind "operating_margin" pr = some w) (info : Info) :
    sfind "operating_margin" (applyProfitFallbacks info pr) = some w := by
  unfold applyProfitFallbacks
  have h1 := sfind_fallbackStep_of_ne "operating_margin" "roe" (by decide) info
    "returnOnEquity" pr
  have h2 := sfind_fallbackStep_of_ne "operating_margin" "roa" (by decide) info
    "returnOnAssets" (fallbackStep info "returnOnEquity" "roe" pr)
  have h3 := sfind_fallbackStep_of_ne "operating_margin" "gross_margin" (by decide) info
    "grossMargins"
    (fallbackStep info "returnOnAssets" "roa" (fallbackStep info "returnOnEquity" "roe" pr))
  rw [sfind_fallbackStep_of_ne "operating_margin" "profit_margin" (by decide),
    sfind_fallbackStep_of_some (h3.trans (h2.trans (h1.trans h))) info _]

theorem sfind_operating_applyProfitFallbacks_of_none {pr : Dict}
    (h : sfind "operating_margin" pr = none) (info : Info) :
    sfind "operating_margin" (applyProfitFallbacks info pr) =
      snapshotFallback info "operatingMargins" := by
  unfold applyProfitFallbacks
  have h1 := sfind_fallbackStep_of_ne "operating_margin" "roe" (by decide) info
    "returnOnEquity" pr
  have h2 := sfind_fallbackStep_of_ne "operating_margin" "roa" (by decide) info
    "returnOnAssets" (fallbackStep info "returnOnEquity" "roe" pr)
  have h3 := sfind_fallbackStep_of_ne "operating_margin" "gross_margin" (by decide) info
    "grossMargins"
    (fallbackStep info "returnOnAssets" "roa" (fallbackStep info "returnOnEquity" "roe" pr))
  rw [sfind_fallbackStep_of_ne "operating_margin" "profit_margin" (by decide),
    sfind_fallbackStep_of_none (h3.trans (h2.trans (h1.trans h))) info _]

theorem sfind_profit_applyProfitFallbacks_of_some {pr : Dict} {w : Option ℚ}
    (h : sfind "profit_margin" pr = some w) (info : Info) :
    sfind "profit_margin" (applyProfitFallbacks info pr) = some w := by
  unfold applyProfitFallbacks
  have h1 := sfind_fallbackStep_of_ne "profit_margin" "roe" (by decide) info
    "returnOnEquity" pr
  have h2 := sfind_fallbackStep_of_ne "profit_margin" "roa" (by decide) info
    "returnOnAssets" (fallbackStep info "returnOnEquity" "roe" pr)
  have h3 := sfind_fallbackStep_of_ne "profit_margin" "gross_margin" (by decide) info
    "grossMargins"
    (fallbackStep info "returnOnAssets" "roa" (fallbackStep info "returnOnEquity" "roe" pr))
  have h4 := sfind_fallbackStep_of_ne "profit_margin" "operating_margin" (by decide) info
    "operatingMargins"
    (fallbackStep info "grossMargins" "gross_margin"
      (fallbackStep info "returnOnAssets" "roa" (fallbackStep info "returnOnEquity" "roe" pr)))
  rw [sfind_fallbackStep_of_some (h4.trans (h3.trans (h2.trans (h1.trans h)))) info _]

theorem sfind_profit_applyProfitFallbacks_of_none {pr : Dict}
    (h : sfind "profit_margin" pr = none) (info : Info) :
    sfind "profit_margin" (applyProfitFallbacks info pr) =
      snapshotFallback info "profitMargins" := by
  unfold applyProfitFallbacks
  have h1 := sfind_fallbackStep_of_ne "profit_margin" "roe" (by decide) info
    "returnOnEquity" pr
  have h2 := sfind_fallbackStep_of_ne "profit_margin" "roa" (by decide) info
    "returnOnAssets" (fallbackStep info "returnOnEquity" "roe" pr)
  have h3 := sfind_fallbackStep_of_ne "profit_margin" "gross_margin" (by decide) info
    "grossMargins"
    (fallbackStep info "returnOnAssets" "roa" (fallbackStep info "returnOnEquity" "roe" pr))
  have h4 := sfind_fallbackStep_of_ne "profit_margin" "operating_margin" (by decide) info
    "operatingMargins"
    (fallbackStep info "grossMargins" "gross_margin"
      (fallbackStep info "returnOnAssets" "roa" (fallbackStep info "returnOnEquity" "roe" pr)))
  rw [sfind_fallbackStep_of_none (h4.trans (h3.trans (h2.trans (h1.trans h)))) info _]

/-! ### Statement-derivation lemmas for the profitability group -/

theorem sfind_roeStep_of_ne {k : String} (h : k ≠ "roe") (b i : Col) (pr : Dict) :
    sfind k (roeStep b i pr) = sfind k pr := by
  unfold roeStep
  split
  · split
    · exact sfind_sinsert_of_ne h pr _
    · rfl
  · rfl

theorem roeStep_eq_insert {b i : Col} {e n : ℚ}
    (he : sfind "totalStockholderEquity" b = some e) (hne : e ≠ 0)
    (hn : sfind "netIncome" i = some n) (pr : Dict) :
    roeStep b i pr = sinsert pr "roe" (some (n / e * 100)) := by
  unfold roeStep
  rw [he, hn]
  simp [hne]

theorem roeStep_eq_self {b : Col}
    (h : sfind "totalStockholderEquity" b = none ∨ sfind "totalStockholderEquity" b = some 0)
    (i : Col) (pr : Dict) :
    roeStep b i pr = pr := by
  unfold roeStep
  rcases h with h | h <;> rw [h] <;> split <;> simp_all

theorem sfind_roaStep_of_ne {k : String} (h : k ≠ "roa") (b i : Col) (pr : Dict) :
    sfind k (roaStep b i pr) = sfind k pr := by
  unfold roaStep
  split
  · split
    · exact sfind_sinsert_of_ne h pr _
    · rfl
  · rfl

theorem roaStep_eq_insert {b i : Col} {a n : ℚ}
    (ha : sfind "totalAssets" b = some a) (hne : a ≠ 0)
    (hn : sfind "netIncome" i = some n) (pr : Dict) :
    roaStep b i pr = sinsert pr "roa" (some (n / a * 100)) := by
  unfold roaStep
  rw [ha, hn]
  simp [hne]

theorem roaStep_eq_self {b : Col}
    (h : sfind "totalAssets" b = none ∨ sfind "totalAssets" b = some 0)
    (i : Col) (pr : Dict) :
    roaStep b i pr = pr := by
  unfold roaStep
  rcases h with h | h <;> rw [h] <;> split <;> simp_all

theorem sfind_marginsStep_of_ne {k : String} (h1 : k ≠ "gross_margin")
    (h2 : k ≠ "operating_margin") (h3 : k ≠ "profit_margin") (i : Col) (pr : Dict) :
    sfind k (marginsStep i pr) = sfind k pr := by
  unfold marginsStep
  repeat' split
  all_goals
    simp [sfind_sinsert_of_ne h1, sfind_sinsert_of_ne h2, sfind_sinsert_of_ne h3]

theorem marginsStep_eq_self {i : Col}
    (h : sfind "totalRevenue" i = none ∨ sfind "totalRevenue" i = some 0) (pr : Dict) :
    marginsStep i pr = pr := by
  unfold marginsStep
  rcases h with h | h <;> rw [h] <;> simp

theorem sfind_gross_marginsStep {i : Col} {rev gp : ℚ} {pr : Dict}
    (hr : sfind "totalRevenue" i = some rev) (hne : rev ≠ 0)
    (hg : sfind "grossProfit" i = some gp) (hpr : sfind "gross_margin" pr = none) :
    sfind "gross_margin" (marginsStep i pr) = some (some (gp / rev * 100)) := by
  simp only [marginsStep, hr, hg]
  rw [if_pos hne]
  repeat' split
  all_goals simp_all [sfind_sinsert_of_ne, sfind_sinsert_self]

theorem sfind_gross_marginsStep_none {i : Col} {pr : Dict}
    (hg : sfind "grossProfit" i = none) (hpr : sfind "gross_margin" pr = none) :
    sfind "gross_margin" (marginsStep i pr) = none := by
  unfold marginsStep
  repeat' split
  all_goals simp_all [sfind_sinsert_of_ne]

theorem sfind_operating_marginsStep {i : Col} {rev oi : ℚ} {pr : Dict}
    (hr : sfind "totalRevenue" i = some rev) (hne : rev ≠ 0)
    (ho : sfind "operatingIncome" i = some oi) (hpr : sfind "operating_margin" pr = none) :
    sfind "operating_margin" (marginsStep i pr) = some (some (oi / rev * 100)) := by
  simp only [marginsStep, hr, ho]
  rw [if_pos hne]
  repeat' split
  all_goals simp_all [sfind_sinsert_of_ne, sfind_sinsert_self]

theorem sfind_operating_marginsStep_none {i : Col} {pr : Dict}
    (ho : sfind "operatingIncome" i = none) (hpr : sfind "operating_margin" pr = none) :
    sfind "operating_margin" (marginsStep i pr) = none := by
  unfold marginsStep
  repeat' split
  all_goals simp_all [sfind_sinsert_of_ne]

theorem sfind_profit_marginsStep {i : Col} {rev ni : ℚ} {pr : Dict}
    (hr : sfind "totalRevenue" i = some rev) (hne : rev ≠ 0)
    (hn : sfind "netIncome" i = some ni) (hpr : sfind "profit_margin" pr = none) :
    sfind "profit_margin" (marginsStep i pr) = some (some (ni / rev * 100)) := by
  simp only [marginsStep, hr, hn]
  rw [if_pos hne]
  repeat' split
  all_goals simp_all [sfind_sinsert_of_ne, sfind_sinsert_self]

theorem sfind_profit_marginsStep_none {i : Col} {pr : Dict}
    (hn : sfind "netIncome" i = none) (hpr : sfind "profit_margin" pr = none) :
    sfind "profit_margin" (marginsStep i pr) = none := by
  unfold marginsStep
  repeat' split
  all_goals simp_all [sfind_sinsert_of_ne]

/-! ### Growth-step lemmas -/

theorem sfind_growthStep_of_ne {k key : String} (h : k ≠ key)
    (item : String) (c0 c1 : Col) (gr : Dict) :
    sfind k (growthStep item key c0 c1 gr) = sfind k gr := by
  unfold growthStep
  split
  · split
    · exact sfind_sinsert_of_ne h gr _
    · rfl
  · rfl

theorem growthStep_eq_insert {item : String} {c0 c1 : Col} {cur prev : ℚ}
    (h0 : sfind item c0 = some cur) (h1 : sfind item c1 = some prev) (hne : prev ≠ 0)
    (key : String) (gr : Dict) :
    growthStep item key c0 c1 gr = sinsert gr key (some ((cur / prev - 1) * 100)) := by
  unfold growthStep
  rw [h0, h1]
  simp [hne]

theorem growthStep_eq_self {item : String} {c0 c1 : Col}
    (h : sfind item c1 = some 0 ∨ sfind item c1 = none ∨ sfind item c0 = none)
    (key : String) (gr : Dict) :
    growthStep item key c0 c1 gr = gr := by
  unfold growthStep
  rcases h with h | h | h <;> rw [h] <;> split <;> simp_all

/-! ### Liquidity-step lemmas -/

theorem sfind_currentRatioStep_of_ne {k : String} (h : k ≠ "current_ratio")
    (b : Col) (lr : Dict) :
    sfind k (currentRatioStep b lr) = sfind k lr := by
  unfold currentRatioStep
  split
  · split
    · exact sfind_sinsert_of_ne h lr _
    · rfl
  · rfl

theorem currentRatioStep_eq_insert {b : Col} {ca cl : ℚ}
    (hca : sfind "totalCurrentAssets" b = some ca)
    (hcl : sfind "totalCurrentLiabilities" b = some cl) (hne : cl ≠ 0) (lr : Dict) :
    currentRatioStep b lr = sinsert lr "current_ratio" (some (ca / cl)) := by
  unfold currentRatioStep
  rw [hca, hcl]
  simp [hne]

theorem currentRatioStep_eq_self {b : Col}
    (h : sfind "totalCurrentLiabilities" b = none ∨
      sfind "totalCurrentLiabilities" b = some 0) (lr : Dict) :
    currentRatioStep b lr = lr := by
  unfold currentRatioStep
  rcases h with h | h <;> rw [h] <;> split <;> simp_all

theorem sfind_quickRatioStep_of_ne {k : String} (h : k ≠ "quick_ratio")
    (b : Col) (lr : Dict) :
    sfind k (quickRatioStep b lr) = sfind k lr := by
  unfold quickRatioStep
  split
  · split
    · exact sfind_sinsert_of_ne h lr _
    · rfl
  · rfl

theorem quickRatioStep_eq_insert {b : Col} {ca inv cl : ℚ}
    (hca : sfind "totalCurrentAssets" b = some ca)
    (hinv : sfind "inventory" b = some inv)
    (hcl : sfind "totalCurrentLiabilities" b = some cl) (hne : cl ≠ 0) (lr : Dict) :
    quickRatioStep b lr = sinsert lr "quick_ratio" (some ((ca - inv) / cl)) := by
  unfold quickRatioStep
  rw [hca, hinv, hcl]
  simp [hne]

theorem quickRatioStep_eq_self {b : Col}
    (h : sfind "totalCurrentLiabilities" b = none ∨
      sfind "totalCurrentLiabilities" b = some 0) (lr : Dict) :
    quickRatioStep b lr = lr := by
  unfold quickRatioStep
  rcases h with h | h <;> rw [h] <;> split <;> simp_all

theorem sfind_debtEquityStep_of_ne {k : String} (h : k ≠ "debt_to_equity")
    (b : Col) (lr : Dict) :
    sfind k (debtEquityStep b lr) = sfind k lr := by
  unfold debtEquityStep
  split
  · split
    · exact sfind_sinsert_of_ne h lr _
    · rfl
  · rfl

theorem debtEquityStep_eq_insert {b : Col} {td e : ℚ}
    (htd : sfind "totalLiabilities" b = some td)
    (he : sfind "totalStockholderEquity" b = some e) (hne : e ≠ 0) (lr : Dict) :
    debtEquityStep b lr = sinsert lr "debt_to_equity" (some (td / e)) := by
  unfold debtEquityStep
  rw [htd, he]
  simp [hne]

theorem debtEquityStep_eq_self {b : Col}
    (h : sfind "totalStockholderEquity" b = none ∨
      sfind "totalStockholderEquity" b = some 0) (lr : Dict) :
    debtEquityStep b lr = lr := by
  unfold debtEquityStep
  rcases h with h | h <;> rw [h] <;> split <;> simp_all

theorem sfind_interestCoverageStep_of_ne {k : String} (h : k ≠ "interest_coverage")
    (ist : Stmt) (lr : Dict) :
    sfind k (interestCoverageStep ist lr) = sfind k lr := by
  simp only [interestCoverageStep]
  split
  · split
    · split
      · exact sfind_sinsert_of_ne h lr _
      · rfl
    · rfl
  · rfl

theorem interestCoverageStep_eq_insert {ist : Stmt} {oi ie : ℚ}
    (hni : Stmt.isEmpty ist = false)
    (hoi : sfind "operatingIncome" (ist.headD []) = some oi)
    (hie : sfind "interestExpense" (ist.headD []) = some ie) (hne : ie ≠ 0) (lr : Dict) :
    interestCoverageStep ist lr = sinsert lr "interest_coverage" (some (oi / |ie|)) := by
  simp only [interestCoverageStep]
  rw [if_pos hni, hoi, hie]
  simp [hne]

theorem interestCoverageStep_eq_self {ist : Stmt}
    (h : sfind "interestExpense" (ist.headD []) = none ∨
      sfind "interestExpense" (ist.headD []) = some 0) (lr : Dict) :
    interestCoverageStep ist lr = lr := by
  simp only [interestCoverageStep]
  split
  · rcases h with h | h <;> rw [h] <;> split <;> simp_all
  · rfl

/-! ### Snapshot-block lemma for the price group -/

theorem sfind_snapshotPriceMetrics_of_ne {k : String} (h1 : k ≠ "current_price")
    (h2 : k ≠ "52w_high") (h3 : k ≠ "52w_low") (h4 : k ≠ "market_cap") (info : Info) :
    sfind k (snapshotPriceMetrics info) = none := by
  unfold snapshotPriceMetrics
  split
  · rfl
  · simp [sfind_sinsert_of_ne h1, sfind_sinsert_of_ne h2, sfind_sinsert_of_ne h3,
      sfind_sinsert_of_ne h4, sfind, h1, h2, h3, h4]

/-! ### Group-level reduction lemmas -/

theorem sfind_some_isEmpty_false {α : Type} {k : String} {l : List (String × α)} {v : α}
    (h : sfind k l = some v) : l.isEmpty = false := by
  cases l <;> simp_all [sfind]

theorem calculate_price_metrics_eq {s : Stock} {info : Info} {hist : List DailyRec}
    (hi : s.info = some info) (hh : s.hist = some hist) :
    calculate_price_metrics s = price_metrics_body info hist := by
  unfold calculate_price_metrics
  rw [hi, hh]

theorem calculate_price_metrics_empty_of_info {s : Stock} (hi : s.info = none) :
    calculate_price_metrics s = [] := by
  cases hh : s.hist <;> simp [calculate_price_metrics, hi, hh]

theorem calculate_price_metrics_empty_of_hist {s : Stock} (hh : s.hist = none) :
    calculate_price_metrics s = [] := by
  cases hi : s.info <;> simp [calculate_price_metrics, hi, hh]

theorem calculate_valuation_ratios_eq {s : Stock} {info : Info} (hi : s.info = some info) :
    calculate_valuation_ratios s = valuation_body info := by
  unfold calculate_valuation_ratios
  rw [hi]

theorem calculate_valuation_ratios_empty_of_info {s : Stock} (hi : s.info = none) :
    calculate_valuation_ratios s = [] := by
  simp [calculate_valuation_ratios, hi]

theorem calculate_profitability_ratios_eq {s : Stock} {info : Info} {bs ist : Stmt}
    (hi : s.info = some info) (hb : s.balance_sheet = some bs)
    (hs : s.income_stmt = some ist) :
    calculate_profitability_ratios s = profitability_body info bs ist := by
  unfold calculate_profitability_ratios
  rw [hi, hb, hs]

theorem calculate_profitability_ratios_empty_of_info {s : Stock} (hi : s.info = none) :
    calculate_profitability_ratios s = [] := by
  cases hb : s.balance_sheet <;> cases hs : s.income_stmt <;>
    simp [calculate_profitability_ratios, hi, hb, hs]

theorem calculate_profitability_ratios_empty_of_bs {s : Stock}
    (hb : s.balance_sheet = none) : calculate_profitability_ratios s = [] := by
  cases hi : s.info <;> cases hs : s.income_stmt <;>
    simp [calculate_profitability_ratios, hi, hb, hs]

theorem calculate_profitability_ratios_empty_of_is {s : Stock}
    (hs : s.income_stmt = none) : calculate_profitability_ratios s = [] := by
  cases hi : s.info <;> cases hb : s.balance_sheet <;>
    simp [calculate_profitability_ratios, hi, hb, hs]

theorem calculate_liquidity_ratios_eq {s : Stock} {bs ist : Stmt}
    (hb : s.balance_sheet = some bs) (hs : s.income_stmt = some ist) :
    calculate_liquidity_ratios s = liquidity_body bs ist := by
  unfold calculate_liquidity_ratios
  rw [hb, hs]

theorem calculate_liquidity_ratios_empty_of_bs {s : Stock}
    (hb : s.balance_sheet = none) : calculate_liquidity_ratios s = [] := by
  cases hs : s.income_stmt <;> simp [calculate_liquidity_ratios, hb, hs]

theorem calculate_liquidity_ratios_empty_of_is {s : Stock}
    (hs : s.income_stmt = none) : calculate_liquidity_ratios s = [] := by
  cases hb : s.balance_sheet <;> simp [calculate_liquidity_ratios, hb, hs]

theorem calculate_growth_rates_eq {s : Stock} {ist : Stmt}
    (hs : s.income_stmt = some ist) :
    calculate_growth_rates s = growth_body ist := by
  unfold calculate_growth_rates
  rw [hs]

theorem calculate_growth_rates_empty_of_is {s : Stock}
    (hs : s.income_stmt = none) : calculate_growth_rates s = [] := by
  simp [calculate_growth_rates, hs]

theorem get_financial_ratios_eq (fetch : String → Option Stock) (ticker : String)
    {stock : Stock} (h : fetch ticker = some stock) :
    get_financial_ratios fetch ticker =
      some
        { ticker := ticker
          price_metrics := calculate_price_metrics stock
          valuation_ratios := calculate_valuation_ratios stock
          profitability_ratios := calculate_profitability_ratios stock
          liquidity_ratios := calculate_liquidity_ratios stock
          growth_rates := calculate_growth_rates stock } := by
  unfold get_financial_ratios get_stock_data
  rw [h]

/-! ### Valuation-body lemmas -/

theorem sfind_dividend_valuation_body_direct {info : Info} {x : ℚ}
    (h : Info.get info "dividendYield" = some x) :
    sfind "dividend_yield" (valuation_body info) = some (some (x * 100)) := by
  simp [valuation_body, h, sinsert, sfind]

theorem sfind_dividend_valuation_body_trailing {info : Info} {y : ℚ}
    (h1 : Info.get info "dividendYield" = none)
    (h2 : Info.get info "trailingAnnualDividendYield" = some y) :
    sfind "dividend_yield" (valuation_body info) = some (some (y * 100)) := by
  simp [valuation_body, h1, h2, sinsert, sfind]

theorem sfind_dividend_valuation_body_none {info : Info}
    (h1 : Info.get info "dividendYield" = none)
    (h2 : Info.get info "trailingAnnualDividendYield" = none) :
    sfind "dividend_yield" (valuation_body info) = none := by
  simp [valuation_body, h1, h2, sinsert, sfind]

/-! ### Profitability-body lemmas -/

theorem sfind_roe_profitability_body_computed {info : Info} {b0 i0 : Col}
    {brest irest : Stmt} {e n : ℚ}
    (he : sfind "totalStockholderEquity" b0 = some e) (hne : e ≠ 0)
    (hn : sfind "netIncome" i0 = some n) :
    sfind "roe" (profitability_body info (b0 :: brest) (i0 :: irest)) =
      some (some (n / e * 100)) := by
  unfold profitability_body
  rw [if_pos ⟨sfind_some_isEmpty_false he, sfind_some_isEmpty_false hn⟩]
  apply sfind_roe_applyProfitFallbacks_of_some
  simp only [List.headD_cons, stmtProfitability]
  rw [sfind_marginsStep_of_ne (by decide) (by decide) (by decide),
    sfind_roaStep_of_ne (by decide), roeStep_eq_insert he hne hn]
  refine sfind_sinsert_self ?_ _
  rfl

theorem sfind_roe_profitability_body_fallback {info : Info} {bs ist : Stmt}
    (he : sfind "totalStockholderEquity" (bs.headD []) = none ∨
      sfind "totalStockholderEquity" (bs.headD []) = some 0) :
    sfind "roe" (profitability_body info bs ist) =
      snapshotFallback info "returnOnEquity" := by
  unfold profitability_body
  apply sfind_roe_applyProfitFallbacks_of_none
  split
  · simp only [stmtProfitability]
    rw [sfind_marginsStep_of_ne (by decide) (by decide) (by decide),
      sfind_roaStep_of_ne (by decide), roeStep_eq_self he]
    rfl
  · rfl

theorem sfind_roa_profitability_body_computed {info : Info} {b0 i0 : Col}
    {brest irest : Stmt} {a n : ℚ}
    (ha : sfind "totalAssets" b0 = some a) (hne : a ≠ 0)
    (hn : sfind "netIncome" i0 = some n) :
    sfind "roa" (profitability_body info (b0 :: brest) (i0 :: irest)) =
      some (some (n / a * 100)) := by
  unfold profitability_body
  rw [if_pos ⟨sfind_some_isEmpty_false ha, sfind_some_isEmpty_false hn⟩]
  apply sfind_roa_applyProfitFallbacks_of_some
  simp only [List.headD_cons, stmtProfitability]
  rw [sfind_marginsStep_of_ne (by decide) (by decide) (by decide),
    roaStep_eq_insert ha hne hn]
  refine sfind_sinsert_self ?_ _
  rw [sfind_roeStep_of_ne (by decide)]
  rfl

theorem sfind_roa_profitability_body_fallback {info : Info} {bs ist : Stmt}
    (ha : sfind "totalAssets" (bs.headD []) = none ∨
      sfind "totalAssets" (bs.headD []) = some 0) :
    sfind "roa" (profitability_body info bs ist) =
      snapshotFallback info "returnOnAssets" := by
  unfold profitability_body
  apply sfind_roa_applyProfitFallbacks_of_none
  split
  · simp only [stmtProfitability]
    rw [sfind_marginsStep_of_ne (by decide) (by decide) (by decide),
      roaStep_eq_self ha, sfind_roeStep_of_ne (by decide)]
    rfl
  · rfl

theorem sfind_gross_profitability_body_computed {info : Info} {b0 i0 : Col}
    {brest irest : Stmt} {rev gp : ℚ}
    (hb0 : List.isEmpty b0 = false)
    (hr : sfind "totalRevenue" i0 = some rev) (hne : rev ≠ 0)
    (hg : sfind "grossProfit" i0 = some gp) :
    sfind "gross_margin" (profitability_body info (b0 :: brest) (i0 :: irest)) =
      some (some (gp / rev * 100)) := by
  unfold profitability_body
  rw [if_pos ⟨hb0, sfind_some_isEmpty_false hr⟩]
  apply sfind_gross_applyProfitFallbacks_of_some
  simp only [List.headD_cons, stmtProfitability]
  apply sfind_gross_marginsStep hr hne hg
  rw [sfind_roaStep_of_ne (by decide), sfind_roeStep_of_ne (by decide)]
  rfl

theorem sfind_operating_profitability_body_computed {info : Info} {b0 i0 : Col}
    {brest irest : Stmt} {rev oi : ℚ}
    (hb0 : List.isEmpty b0 = false)
    (hr : sfind "totalRevenue" i0 = some rev) (hne : rev ≠ 0)
    (ho : sfind "operatingIncome" i0 = some oi) :
    sfind "operating_margin" (profitability_body info (b0 :: brest) (i0 :: irest)) =
      some (some (oi / rev * 100)) := by
  unfold profitability_body
  rw [if_pos ⟨hb0, sfind_some_isEmpty_false hr⟩]
  apply sfind_operating_applyProfitFallbacks_of_some
  simp only [List.headD_cons, stmtProfitability]
  apply sfind_operating_marginsStep hr hne ho
  rw [sfind_roaStep_of_ne (by decide), sfind_roeStep_of_ne (by decide)]
  rfl

theorem sfind_profit_profitability_body_computed {info : Info} {b0 i0 : Col}
    {brest irest : Stmt} {rev ni : ℚ}
    (hb0 : List.isEmpty b0 = false)
    (hr : sfind "totalRevenue" i0 = some rev) (hne : rev ≠ 0)
    (hn : sfind "netIncome" i0 = some ni) :
    sfind "profit_margin" (profitability_body info (b0 :: brest) (i0 :: irest)) =
      some (some (ni / rev * 100)) := by
  unfold profitability_body
  rw [if_pos ⟨hb0, sfind_some_isEmpty_false hr⟩]
  apply sfind_profit_applyProfitFallbacks_of_some
  simp only [List.headD_cons, stmtProfitability]
  apply sfind_profit_marginsStep hr hne hn
  rw [sfind_roaStep_of_ne (by decide), sfind_roeStep_of_ne (by decide)]
  rfl

theorem sfind_gross_profitability_body_fallback {info : Info} {bs ist : Stmt}
    (hg : sfind "grossProfit" (ist.headD []) = none) :
    sfind "gross_margin" (profitability_body info bs ist) =
      snapshotFallback info "grossMargins" := by
  unfold profitability_body
  apply sfind_gross_applyProfitFallbacks_of_none
  split
  · simp only [stmtProfitability]
    apply sfind_gross_marginsStep_none hg
    rw [sfind_roaStep_of_ne (by decide), sfind_roeStep_of_ne (by decide)]
    rfl
  · rfl

theorem sfind_operating_profitability_body_fallback {info : Info} {bs ist : Stmt}
    (ho : sfind "operatingIncome" (ist.headD []) = none) :
    sfind "operating_margin" (profitability_body info bs ist) =
      snapshotFallback info "operatingMargins" := by
  unfold profitability_body
  apply sfind_operating_applyProfitFallbacks_of_none
  split
  · simp only [stmtProfitability]
    apply sfind_operating_marginsStep_none ho
    rw [sfind_roaStep_of_ne (by decide), sfind_roeStep_of_ne (by decide)]
    rfl
  · rfl

theorem sfind_profit_profitability_body_fallback {info : Info} {bs ist : Stmt}
    (hn : sfind "netIncome" (ist.headD []) = none) :
    sfind "profit_margin" (profitability_body info bs ist) =
      snapshotFallback info "profitMargins" := by
  unfold profitability_body
  apply sfind_profit_applyProfitFallbacks_of_none
  split
  · simp only [stmtProfitability]
    apply sfind_profit_marginsStep_none hn
    rw [sfind_roaStep_of_ne (by decide), sfind_roeStep_of_ne (by decide)]
    rfl
  · rfl

theorem sfind_margins_profitability_body_rev_guard {info : Info} {bs ist : Stmt}
    (hr : sfind "totalRevenue" (ist.headD []) = none ∨
      sfind "totalRevenue" (ist.headD []) = some 0) :
    sfind "gross_margin" (profitability_body info bs ist) =
        snapshotFallback info "grossMargins" ∧
      sfind "operating_margin" (profitability_body info bs ist) =
        snapshotFallback info "operatingMargins" ∧
      sfind "profit_margin" (profitability_body info bs ist) =
        snapshotFallback info "profitMargins" := by
  unfold profitability_body
  refine ⟨sfind_gross_applyProfitFallbacks_of_none ?_ info,
    sfind_operating_applyProfitFallbacks_of_none ?_ info,
    sfind_profit_applyProfitFallbacks_of_none ?_ info⟩ <;>
    split <;>
    first
      | rfl
      | (simp only [stmtProfitability]
         rw [marginsStep_eq_self hr, sfind_roaStep_of_ne (by decide),
           sfind_roeStep_of_ne (by decide)]
         rfl)

/-! ### Liquidity-body lemmas -/

theorem sfind_current_liquidity_body_none {bs ist : Stmt}
    (h : sfind "totalCurrentLiabilities" (bs.headD []) = none ∨
      sfind "totalCurrentLiabilities" (bs.headD []) = some 0) :
    sfind "current_ratio" (liquidity_body bs ist) = none := by
  simp only [liquidity_body]
  split
  · rw [sfind_interestCoverageStep_of_ne (by decide),
      sfind_debtEquityStep_of_ne (by decide), sfind_quickRatioStep_of_ne (by decide),
      currentRatioStep_eq_self h]
    rfl
  · rfl

theorem sfind_quick_liquidity_body_none {bs ist : Stmt}
    (h : sfind "totalCurrentLiabilities" (bs.headD []) = none ∨
      sfind "totalCurrentLiabilities" (bs.headD []) = some 0) :
    sfind "quick_ratio" (liquidity_body bs ist) = none := by
  simp only [liquidity_body]
  split
  · rw [sfind_interestCoverageStep_of_ne (by decide),
      sfind_debtEquityStep_of_ne (by decide), quickRatioStep_eq_self h,
      sfind_currentRatioStep_of_ne (by decide)]
    rfl
  · rfl

theorem sfind_debt_liquidity_body_none {bs ist : Stmt}
    (h : sfind "totalStockholderEquity" (bs.headD []) = none ∨
      sfind "totalStockholderEquity" (bs.headD []) = some 0) :
    sfind "debt_to_equity" (liquidity_body bs ist) = none := by
  simp only [liquidity_body]
  split
  · rw [sfind_interestCoverageStep_of_ne (by decide), debtEquityStep_eq_self h,
      sfind_quickRatioStep_of_ne (by decide), sfind_currentRatioStep_of_ne (by decide)]
    rfl
  · rfl

theorem sfind_interest_liquidity_body_none {bs ist : Stmt}
    (h : sfind "interestExpense" (ist.headD []) = none ∨
      sfind "interestExpense" (ist.headD []) = some 0) :
    sfind "interest_coverage" (liquidity_body bs ist) = none := by
  simp only [liquidity_body]
  split
  · rw [interestCoverageStep_eq_self h, sfind_debtEquityStep_of_ne (by decide),
      sfind_quickRatioStep_of_ne (by decide), sfind_currentRatioStep_of_ne (by decide)]
    rfl
  · rfl

/-! ### Growth-body lemmas -/

theorem growth_body_eq_nil {ist : Stmt} (h : ist.length < 2) : growth_body ist = [] := by
  unfold growth_body
  rw [if_neg]
  rintro ⟨-, h2⟩
  omega

theorem sfind_revenue_growth_body {c0 c1 : Col} {rest : Stmt} {cur prev : ℚ}
    (h0 : sfind "totalRevenue" c0 = some cur) (h1 : sfind "totalRevenue" c1 = some prev)
    (hne : prev ≠ 0) :
    sfind "revenue_growth" (growth_body (c0 :: c1 :: rest)) =
      some (some ((cur / prev - 1) * 100)) := by
  unfold growth_body
  rw [if_pos ⟨sfind_some_isEmpty_false h0, by simp⟩]
  simp only [List.headD_cons, List.drop_succ_cons, List.drop_zero]
  rw [sfind_growthStep_of_ne (by decide), sfind_growthStep_of_ne (by decide),
    growthStep_eq_insert h0 h1 hne]
  refine sfind_sinsert_self ?_ _
  rfl

theorem sfind_revenue_growth_body_none {ist : Stmt}
    (h : sfind "totalRevenue" ((ist.drop 1).headD []) = some 0 ∨
      sfind "totalRevenue" ((ist.drop 1).headD []) = none ∨
      sfind "totalRevenue" (ist.headD []) = none) :
    sfind "revenue_growth" (growth_body ist) = none := by
  unfold growth_body
  split
  · rw [sfind_growthStep_of_ne (by decide), sfind_growthStep_of_ne (by decide),
      growthStep_eq_self h]
    rfl
  · rfl

theorem sfind_earnings_growth_body {c0 c1 : Col} {rest : Stmt} {cur prev : ℚ}
    (h0 : sfind "netIncome" c0 = some cur) (h1 : sfind "netIncome" c1 = some prev)
    (hne : prev ≠ 0) :
    sfind "earnings_growth" (growth_body (c0 :: c1 :: rest)) =
      some (some ((cur / prev - 1) * 100)) := by
  unfold growth_body
  rw [if_pos ⟨sfind_some_isEmpty_false h0, by simp⟩]
  simp only [List.headD_cons, List.drop_succ_cons, List.drop_zero]
  rw [sfind_growthStep_of_ne (by decide), growthStep_eq_insert h0 h1 hne]
  refine sfind_sinsert_self ?_ _
  rw [sfind_growthStep_of_ne (by decide)]
  rfl

theorem sfind_earnings_growth_body_none {ist : Stmt}
    (h : sfind "netIncome" ((ist.drop 1).headD []) = some 0 ∨
      sfind "netIncome" ((ist.drop 1).headD []) = none ∨
      sfind "netIncome" (ist.headD []) = none) :
    sfind "earnings_growth" (growth_body ist) = none := by
  unfold growth_body
  split
  · rw [sfind_growthStep_of_ne (by decide), growthStep_eq_self h,
      sfind_growthStep_of_ne (by decide)]
    rfl
  · rfl

theorem sfind_ebitda_growth_body {c0 c1 : Col} {rest : Stmt} {cur prev : ℚ}
    (h0 : sfind "ebitda" c0 = some cur) (h1 : sfind "ebitda" c1 = some prev)
    (hne : prev ≠ 0) :
    sfind "ebitda_growth" (growth_body (c0 :: c1 :: rest)) =
      some (some ((cur / prev - 1) * 100)) := by
  unfold growth_body
  rw [if_pos ⟨sfind_some_isEmpty_false h0, by simp⟩]
  simp only [List.headD_cons, List.drop_succ_cons, List.drop_zero]
  rw [growthStep_eq_insert h0 h1 hne]
  refine sfind_sinsert_self ?_ _
  rw [sfind_growthStep_of_ne (by decide), sfind_growthStep_of_ne (by decide)]
  rfl

theorem sfind_ebitda_growth_body_none {ist : Stmt}
    (h : sfind "ebitda" ((ist.drop 1).headD []) = some 0 ∨
      sfind "ebitda" ((ist.drop 1).headD []) = none ∨
      sfind "ebitda" (ist.headD []) = none) :
    sfind "ebitda_growth" (growth_body ist) = none := by
  unfold growth_body
  split
  · rw [growthStep_eq_self h, sfind_growthStep_of_ne (by decide),
      sfind_growthStep_of_ne (by decide)]
    rfl
  · rfl

/-! ### Price-body lemmas -/

theorem sfind_price_change_body {info : Info} {h : DailyRec} {t : List DailyRec}
    (h252 : 252 ≤ (h :: t).length) (hpos : 0 < h.close) :
    sfind "price_change_1y" (price_metrics_body info (h :: t)) =
      some (some ((((h :: t).map DailyRec.close).getLastD 0 / h.close - 1) * 100)) := by
  simp only [price_metrics_body]
  rw [if_pos h252, if_pos hpos, if_pos (le_trans (by norm_num) h252)]
  rw [sfind_sinsert_of_ne (by decide), sfind_sinsert_of_ne (by decide),
    sfind_sinsert_of_ne (by decide)]
  refine sfind_sinsert_self ?_ _
  exact sfind_snapshotPriceMetrics_of_ne (by decide) (by decide) (by decide) (by decide) info

theorem sfind_price_change_body_short {info : Info} {hist : List DailyRec}
    (hlen : hist.length < 252) :
    sfind "price_change_1y" (price_metrics_body info hist) = none := by
  cases hist with
  | nil =>
    simp only [price_metrics_body]
    exact sfind_snapshotPriceMetrics_of_ne (by decide) (by decide) (by decide) (by decide) info
  | cons h t =>
    simp only [price_metrics_body]
    rw [if_neg (not_le.mpr hlen)]
    by_cases h200 : 200 ≤ (h :: t).length
    · rw [if_pos h200, sfind_sinsert_of_ne (by decide), sfind_sinsert_of_ne (by decide),
        sfind_sinsert_of_ne (by decide)]
      exact sfind_snapshotPriceMetrics_of_ne (by decide) (by decide) (by decide) (by decide)
        info
    · rw [if_neg h200, sfind_sinsert_of_ne (by decide)]
      exact sfind_snapshotPriceMetrics_of_ne (by decide) (by decide) (by decide) (by decide)
        info

theorem sfind_price_change_body_nonpos {info : Info} {h : DailyRec} {t : List DailyRec}
    (h252 : 252 ≤ (h :: t).length) (hle : h.close ≤ 0) :
    sfind "price_change_1y" (price_metrics_body info (h :: t)) = none := by
  simp only [price_metrics_body]
  rw [if_pos h252, if_neg (not_lt.mpr hle), if_pos (le_trans (by norm_num) h252)]
  rw [sfind_sinsert_of_ne (by decide), sfind_sinsert_of_ne (by decide),
    sfind_sinsert_of_ne (by decide)]
  exact sfind_snapshotPriceMetrics_of_ne (by decide) (by decide) (by decide) (by decide) info

theorem sfind_ma_body {info : Info} {h : DailyRec} {t : List DailyRec}
    (h200 : 200 ≤ (h :: t).length) :
    sfind "ma_50" (price_metrics_body info (h :: t)) =
        some (some (mean (lastN 50 ((h :: t).map DailyRec.close)))) ∧
      sfind "ma_200" (price_metrics_body info (h :: t)) =
        some (some (mean (lastN 200 ((h :: t).map DailyRec.close)))) := by
  simp only [price_metrics_body]
  rw [if_pos h200]
  constructor
  · rw [sfind_sinsert_of_ne (by decide), sfind_sinsert_of_ne (by decide)]
    refine sfind_sinsert_self ?_ _
    split
    · split
      · rw [sfind_sinsert_of_ne (by decide)]
        exact sfind_snapshotPriceMetrics_of_ne (by decide) (by decide) (by decide) (by decide)
          info
      · exact sfind_snapshotPriceMetrics_of_ne (by decide) (by decide) (by decide) (by decide)
          info
    · exact sfind_snapshotPriceMetrics_of_ne (by decide) (by decide) (by decide) (by decide)
        info
  · rw [sfind_sinsert_of_ne (by decide)]
    refine sfind_sinsert_self ?_ _
    rw [sfind_sinsert_of_ne (by decide)]
    split
    · split
      · rw [sfind_sinsert_of_ne (by decide)]
        exact sfind_snapshotPriceMetrics_of_ne (by decide) (by decide) (by decide) (by decide)
          info
      · exact sfind_snapshotPriceMetrics_of_ne (by decide) (by decide) (by decide) (by decide)
          info
    · exact sfind_snapshotPriceMetrics_of_ne (by decide) (by decide) (by decide) (by decide)
        info

theorem sfind_ma_body_short {info : Info} {hist : List DailyRec}
    (hlen : hist.length < 200) :
    sfind "ma_50" (price_metrics_body info hist) = none ∧
      sfind "ma_200" (price_metrics_body info hist) = none := by
  cases hist with
  | nil =>
    simp only [price_metrics_body]
    exact ⟨sfind_snapshotPriceMetrics_of_ne (by decide) (by decide) (by decide) (by decide)
      info,
      sfind_snapshotPriceMetrics_of_ne (by decide) (by decide) (by decide) (by decide) info⟩
  | cons h t =>
    simp only [price_metrics_body]
    rw [if_neg (show ¬252 ≤ (h :: t).length by omega), if_neg (not_le.mpr hlen)]
    exact ⟨by
        rw [sfind_sinsert_of_ne (by decide)]
        exact sfind_snapshotPriceMetrics_of_ne (by decide) (by decide) (by decide) (by decide)
          info,
      by
        rw [sfind_sinsert_of_ne (by decide)]
        exact sfind_snapshotPriceMetrics_of_ne (by decide) (by decide) (by decide) (by decide)
          info⟩

/-! ### Claim theorems -/

/-- C2: `get_financial_ratios` fails soft.  When the upstream source yields
nothing for the symbol the result is `none` rather than an exception; when
it yields a stock, the report is exactly the five independently computed
group mappings; an accessor failure inside a group's derivation yields the
empty mapping for that group; and each group's result depends only on the
artifacts it reads, so a failure in one group leaves the other groups'
computed results unaffected. -/
theorem claim_C2_fails_soft :
    ∀ (fetch : String → Option Stock) (ticker : String),
      (fetch ticker = none → get_financial_ratios fetch ticker = none) ∧
      (∀ stock : Stock, fetch ticker = some stock →
        get_financial_ratios fetch ticker =
          some
            { ticker := ticker
              price_metrics := calculate_price_metrics stock
              valuation_ratios := calculate_valuation_ratios stock
              profitability_ratios := calculate_profitability_ratios stock
              liquidity_ratios := calculate_liquidity_ratios stock
              growth_rates := calculate_growth_rates stock }) ∧
      (∀ s : Stock,
        (s.info = none → calculate_price_metrics s = [] ∧
          calculate_valuation_ratios s = [] ∧ calculate_profitability_ratios s = []) ∧
        (s.hist = none → calculate_price_metrics s = []) ∧
        (s.balance_sheet = none → calculate_profitability_ratios s = [] ∧
          calculate_liquidity_ratios s = []) ∧
        (s.income_stmt = none → calculate_profitability_ratios s = [] ∧
          calculate_liquidity_ratios s = [] ∧ calculate_growth_rates s = [])) ∧
      (∀ s1 s2 : Stock,
        (s1.info = s2.info →
          calculate_valuation_ratios s1 = calculate_valuation_ratios s2) ∧
        (s1.info = s2.info → s1.hist = s2.hist →
          calculate_price_metrics s1 = calculate_price_metrics s2) ∧
        (s1.info = s2.info → s1.balance_sheet = s2.balance_sheet →
          s1.income_stmt = s2.income_stmt →
          calculate_profitability_ratios s1 = calculate_profitability_ratios s2) ∧
        (s1.balance_sheet = s2.balance_sheet → s1.income_stmt = s2.income_stmt →
          calculate_liquidity_ratios s1 = calculate_liquidity_ratios s2) ∧
        (s1.income_stmt = s2.income_stmt →
          calculate_growth_rates s1 = calculate_growth_rates s2)) := by
  intro fetch ticker
  refine ⟨?_, ?_, ?_, ?_⟩
  · intro h
    unfold get_financial_ratios get_stock_data
    rw [h]
  · intro stock h
    exact get_financial_ratios_eq fetch ticker h
  · intro s
    refine ⟨?_, ?_, ?_, ?_⟩
    · intro h
      exact ⟨calculate_price_metrics_empty_of_info h,
        calculate_valuation_ratios_empty_of_info h,
        calculate_profitability_ratios_empty_of_info h⟩
    · intro h
      exact calculate_price_metrics_empty_of_hist h
    · intro h
      exact ⟨calculate_profitability_ratios_empty_of_bs h,
        calculate_liquidity_ratios_empty_of_bs h⟩
    · intro h
      exact ⟨calculate_profitability_ratios_empty_of_is h,
        calculate_liquidity_ratios_empty_of_is h,
        calculate_growth_rates_empty_of_is h⟩
  · intro s1 s2
    refine ⟨?_, ?_, ?_, ?_, ?_⟩
    · intro h1
      unfold calculate_valuation_ratios
      rw [h1]
    · intro h1 h2
      unfold calculate_price_metrics
      rw [h1, h2]
    · intro h1 h2 h3
      unfold calculate_profitability_ratios
      rw [h1, h2, h3]
    · intro h1 h2
      unfold calculate_liquidity_ratios
      rw [h1, h2]
    · intro h1
      unfold calculate_growth_rates
      rw [h1]

/-- Witness for C2 at a concrete fetch failure and a concrete stock whose
accessors all fail. -/
theorem claim_C2_witness :
    get_financial_ratios (fun _ => none) "AAPL" = none ∧
      calculate_price_metrics ⟨none, none, none, none⟩ = [] ∧
      calculate_growth_rates ⟨none, none, none, none⟩ = [] := by
  refine ⟨(claim_C2_fails_soft (fun _ => none) "AAPL").1 rfl, ?_, ?_⟩
  · exact ((claim_C2_fails_soft (fun _ => none) "AAPL").2.2.1 ⟨none, none, none, none⟩).1
      rfl |>.1
  · exact (((claim_C2_fails_soft (fun _ => none) "AAPL").2.2.1
      ⟨none, none, none, none⟩).2.2.2 rfl).2.2

/-- C5: growth rates need at least two reporting periods; each of revenue,
net-income and EBITDA growth is `((current / prior) - 1) * 100` computed
exactly when both periods carry the line item and the prior value is
nonzero, and the line items do not block each other. -/
theorem claim_C5_growth_rates :
    ∀ (s : Stock) (ist : Stmt), s.income_stmt = some ist →
      (ist.length < 2 → calculate_growth_rates s = []) ∧
      (∀ (c0 c1 : Col) (rest : Stmt), ist = c0 :: c1 :: rest →
        (∀ cur prev : ℚ, sfind "totalRevenue" c0 = some cur →
          sfind "totalRevenue" c1 = some prev → prev ≠ 0 →
          sfind "revenue_growth" (calculate_growth_rates s) =
            some (some ((cur / prev - 1) * 100))) ∧
        (sfind "totalRevenue" c1 = some 0 →
          sfind "revenue_growth" (calculate_growth_rates s) = none) ∧
        (∀ cur prev : ℚ, sfind "netIncome" c0 = some cur →
          sfind "netIncome" c1 = some prev → prev ≠ 0 →
          sfind "earnings_growth" (calculate_growth_rates s) =
            some (some ((cur / prev - 1) * 100))) ∧
        (sfind "netIncome" c1 = some 0 →
          sfind "earnings_growth" (calculate_growth_rates s) = none) ∧
        (∀ cur prev : ℚ, sfind "ebitda" c0 = some cur →
          sfind "ebitda" c1 = some prev → prev ≠ 0 →
          sfind "ebitda_growth" (calculate_growth_rates s) =
            some (some ((cur / prev - 1) * 100))) ∧
        (sfind "ebitda" c1 = some 0 →
          sfind "ebitda_growth" (calculate_growth_rates s) = none)) := by
  intro s ist hs
  rw [calculate_growth_rates_eq hs]
  refine ⟨growth_body_eq_nil, ?_⟩
  rintro c0 c1 rest rfl
  refine ⟨fun cur prev h0 h1 hne => sfind_revenue_growth_body h0 h1 hne,
    fun h1 => sfind_revenue_growth_body_none (Or.inl (by simpa using h1)),
    fun cur prev h0 h1 hne => sfind_earnings_growth_body h0 h1 hne,
    fun h1 => sfind_earnings_growth_body_none (Or.inl (by simpa using h1)),
    fun cur prev h0 h1 hne => sfind_ebitda_growth_body h0 h1 hne,
    fun h1 => sfind_ebitda_growth_body_none (Or.inl (by simpa using h1))⟩

/-- Witness for C5: revenue 1200 over a prior 1000 gives 20.00, and a prior
of 0 omits the metric. -/
theorem claim_C5_witness :
    sfind "revenue_growth"
        (calculate_growth_rates
          ⟨none, none, none, some [[("totalRevenue", 1200)], [("totalRevenue", 1000)]]⟩) =
      some (some 20) ∧
    sfind "revenue_growth"
        (calculate_growth_rates
          ⟨none, none, none, some [[("totalRevenue", 1200)], [("totalRevenue", 0)]]⟩) =
      none := by
  constructor
  · have h := ((claim_C5_growth_rates
        ⟨none, none, none, some [[("totalRevenue", 1200)], [("totalRevenue", 1000)]]⟩
        [[("totalRevenue", 1200)], [("totalRevenue", 1000)]] rfl).2
        [("totalRevenue", 1200)] [("totalRevenue", 1000)] [] rfl).1 1200 1000
      (by simp [sfind]) (by simp [sfind]) (by norm_num)
    rw [h]
    norm_num
  · exact ((claim_C5_growth_rates
        ⟨none, none, none, some [[("totalRevenue", 1200)], [("totalRevenue", 0)]]⟩
        [[("totalRevenue", 1200)], [("totalRevenue", 0)]] rfl).2
        [("totalRevenue", 1200)] [("totalRevenue", 0)] [] rfl).2.1 (by simp [sfind])

/-- C6: dividend yield prefers the direct snapshot field (times 100), falls
back to the trailing annual field (times 100), and is omitted when both are
absent or null. -/
theorem claim_C6_dividend_yield :
    ∀ (s : Stock) (info : Info), s.info = some info →
      (∀ x : ℚ, Info.get info "dividendYield" = some x →
        sfind "dividend_yield" (calculate_valuation_ratios s) = some (some (x * 100))) ∧
      (Info.get info "dividendYield" = none →
        ∀ y : ℚ, Info.get info "trailingAnnualDividendYield" = some y →
          sfind "dividend_yield" (calculate_valuation_ratios s) = some (some (y * 100))) ∧
      (Info.get info "dividendYield" = none →
        Info.get info "trailingAnnualDividendYield" = none →
        sfind "dividend_yield" (calculate_valuation_ratios s) = none) := by
  intro s info hi
  rw [calculate_valuation_ratios_eq hi]
  exact ⟨fun x hx => sfind_dividend_valuation_body_direct hx,
    fun h1 y hy => sfind_dividend_valuation_body_trailing h1 hy,
    fun h1 h2 => sfind_dividend_valuation_body_none h1 h2⟩

/-- Witness for C6: a direct yield field of 0.023 renders as 2.30. -/
theorem claim_C6_witness :
    sfind "dividend_yield"
        (calculate_valuation_ratios
          ⟨some [("dividendYield", some (23 / 1000))], none, none, none⟩) =
      some (some (23 / 10)) := by
  have h := (claim_C6_dividend_yield
      ⟨some [("dividendYield", some (23 / 1000))], none, none, none⟩
      [("dividendYield", some (23 / 1000))] rfl).1 (23 / 1000)
    (by simp [Info.get, sfind])
  rw [h]
  norm_num

/-- C4 counterexample: a 252-record history whose first close is zero has
its one-year price change omitted, although the claim as stated asserts a
computed value for every history with at least 252 records. -/
theorem claim_C4_counterexample :
    252 ≤ histZero.length ∧
      sfind "price_change_1y"
          (calculate_price_metrics ⟨some [], some histZero, none, none⟩) = none := by
  constructor
  · simp [histZero]
  · rw [calculate_price_metrics_eq rfl rfl]
    show sfind "price_change_1y"
      (price_metrics_body [] (⟨0, 1000⟩ :: List.replicate 251 ⟨10, 1000⟩)) = none
    exact sfind_price_change_body_nonpos (by simp) le_rfl

/-- C4 (amended): for a price history of at least 252 daily records whose
first recorded close is strictly positive, the one-year price change equals
(latest close / first close - 1) * 100; with fewer than 252 records the
metric is omitted. -/
theorem claim_C4_price_change :
    ∀ (s : Stock) (info : Info) (hist : List DailyRec),
      s.info = some info → s.hist = some hist →
      (∀ (h : DailyRec) (t : List DailyRec), hist = h :: t → 252 ≤ hist.length →
        0 < h.close →
        sfind "price_change_1y" (calculate_price_metrics s) =
          some (some (((hist.map DailyRec.close).getLastD 0 / h.close - 1) * 100))) ∧
      (hist.length < 252 → sfind "price_change_1y" (calculate_price_metrics s) = none) := by
  intro s info hist hi hh
  rw [calculate_price_metrics_eq hi hh]
  refine ⟨?_, fun hlen => sfind_price_change_body_short hlen⟩
  rintro h t rfl h252 hpos
  exact sfind_price_change_body h252 hpos

/-- Witness for C4: 252 closes from 100 to 150 give a one-year price change
of 50.00. -/
theorem claim_C4_witness :
    sfind "price_change_1y"
        (calculate_price_metrics ⟨some [], some histUp, none, none⟩) =
      some (some 50) := by
  have h := (claim_C4_price_change ⟨some [], some histUp, none, none⟩ [] histUp rfl rfl).1
    ⟨100, 1000⟩ (List.replicate 250 (⟨120, 1000⟩ : DailyRec) ++ [(⟨150, 1000⟩ : DailyRec)])
    rfl (by simp [histUp])
    (by norm_num)
  rw [h]
  have hlast : (histUp.map DailyRec.close).getLastD 0 = 150 := by
    simp [histUp]
  rw [hlast]
  norm_num

/-- C9: with at least 252 daily records but a first recorded close that is
zero or negative, the one-year price change is omitted. -/
theorem claim_C9_nonpositive_year_ago :
    ∀ (s : Stock) (info : Info) (h : DailyRec) (t : List DailyRec),
      s.info = some info → s.hist = some (h :: t) → 252 ≤ (h :: t).length →
      h.close ≤ 0 →
      sfind "price_change_1y" (calculate_price_metrics s) = none := by
  intro s info h t hi hh h252 hle
  rw [calculate_price_metrics_eq hi hh]
  exact sfind_price_change_body_nonpos h252 hle

/-- Witness for C9 at a concrete 252-record history with a zero first
close. -/
theorem claim_C9_witness :
    sfind "price_change_1y"
        (calculate_price_metrics ⟨some [], some histZero, none, none⟩) = none :=
  claim_C9_nonpositive_year_ago _ [] ⟨0, 1000⟩ (List.replicate 251 ⟨10, 1000⟩) rfl rfl
    (by simp) le_rfl

/-- C7: the 50-day and 200-day moving averages are present exactly when the
history has at least 200 records, and then equal the arithmetic means of
the closing prices of the most recent 50 and 200 records. -/
theorem claim_C7_moving_averages :
    ∀ (s : Stock) (info : Info) (hist : List DailyRec),
      s.info = some info → s.hist = some hist →
      (200 ≤ hist.length →
        sfind "ma_50" (calculate_price_metrics s) =
            some (some (mean (lastN 50 (hist.map DailyRec.close)))) ∧
          sfind "ma_200" (calculate_price_metrics s) =
            some (some (mean (lastN 200 (hist.map DailyRec.close))))) ∧
      (hist.length < 200 →
        sfind "ma_50" (calculate_price_metrics s) = none ∧
          sfind "ma_200" (calculate_price_metrics s) = none) := by
  intro s info hist hi hh
  rw [calculate_price_metrics_eq hi hh]
  constructor
  · intro h200
    cases hist with
    | nil => simp at h200
    | cons h t => exact sfind_ma_body h200
  · exact sfind_ma_body_short

/-- Witness for C7: present on a 252-record history, absent on an empty
one. -/
theorem claim_C7_witness :
    sfind "ma_50" (calculate_price_metrics ⟨some [], some histUp, none, none⟩) =
        some (some (mean (lastN 50 (histUp.map DailyRec.close)))) ∧
      sfind "ma_50" (calculate_price_metrics ⟨some [], some [], none, none⟩) = none :=
  ⟨((claim_C7_moving_averages ⟨some [], some histUp, none, none⟩ [] histUp rfl rfl).1
      (by simp [histUp])).1,
    ((claim_C7_moving_averages ⟨some [], some [], none, none⟩ [] [] rfl rfl).2
      (by simp)).1⟩

/-- C1 counterexample: with a zero equity denominator on the balance sheet
the ROE is still present in the profitability mapping (supplied by the
snapshot fallback, 0.2 * 100 = 20), although the claim as stated asserts
that a zero denominator omits the metric from its group's mapping. -/
theorem claim_C1_counterexample :
    sfind "totalStockholderEquity"
        (([[("totalStockholderEquity", (0 : ℚ))]] : Stmt).headD []) = some 0 ∧
      sfind "roe" (calculate_profitability_ratios stockZeroEquity) = some (some 20) := by
  constructor
  · simp [sfind]
  · have h : calculate_profitability_ratios stockZeroEquity =
        profitability_body [("returnOnEquity", some (1 / 5))]
          [[("totalStockholderEquity", 0)]] [[("netIncome", 10)]] :=
      calculate_profitability_ratios_eq rfl rfl rfl
    rw [h, sfind_roe_profitability_body_fallback (Or.inr (by simp [sfind]))]
    norm_num [snapshotFallback, Info.get, sfind]

/-- C1 (amended): every division in the five metric-group derivations is
guarded.  Whenever the denominator line item is absent or zero the division
is skipped, so the metric carries no computed value: in the profitability
group the result is exactly the snapshot-fallback value (absent when the
snapshot field is absent or null), and in the liquidity, growth and price
groups the metric is omitted outright; no infinite or undefined numeric
value is ever produced. -/
theorem claim_C1_division_guards :
    ∀ s : Stock,
      (∀ (info : Info) (bs ist : Stmt), s.info = some info →
        s.balance_sheet = some bs → s.income_stmt = some ist →
        ((sfind "totalStockholderEquity" (bs.headD []) = none ∨
            sfind "totalStockholderEquity" (bs.headD []) = some 0) →
          sfind "roe" (calculate_profitability_ratios s) =
            snapshotFallback info "returnOnEquity") ∧
        ((sfind "totalAssets" (bs.headD []) = none ∨
            sfind "totalAssets" (bs.headD []) = some 0) →
          sfind "roa" (calculate_profitability_ratios s) =
            snapshotFallback info "returnOnAssets") ∧
        ((sfind "totalRevenue" (ist.headD []) = none ∨
            sfind "totalRevenue" (ist.headD []) = some 0) →
          sfind "gross_margin" (calculate_profitability_ratios s) =
              snapshotFallback info "grossMargins" ∧
            sfind "operating_margin" (calculate_profitability_ratios s) =
              snapshotFallback info "operatingMargins" ∧
            sfind "profit_margin" (calculate_profitability_ratios s) =
              snapshotFallback info "profitMargins")) ∧
      (∀ bs ist : Stmt, s.balance_sheet = some bs → s.income_stmt = some ist →
        ((sfind "totalCurrentLiabilities" (bs.headD []) = none ∨
            sfind "totalCurrentLiabilities" (bs.headD []) = some 0) →
          sfind "current_ratio" (calculate_liquidity_ratios s) = none ∧
            sfind "quick_ratio" (calculate_liquidity_ratios s) = none) ∧
        ((sfind "totalStockholderEquity" (bs.headD []) = none ∨
            sfind "totalStockholderEquity" (bs.headD []) = some 0) →
          sfind "debt_to_equity" (calculate_liquidity_ratios s) = none) ∧
        ((sfind "interestExpense" (ist.headD []) = none ∨
            sfind "interestExpense" (ist.headD []) = some 0) →
          sfind "interest_coverage" (calculate_liquidity_ratios s) = none)) ∧
      (∀ ist : Stmt, s.income_stmt = some ist →
        ((sfind "totalRevenue" ((ist.drop 1).headD []) = none ∨
            sfind "totalRevenue" ((ist.drop 1).headD []) = some 0) →
          sfind "revenue_growth" (calculate_growth_rates s) = none) ∧
        ((sfind "netIncome" ((ist.drop 1).headD []) = none ∨
            sfind "netIncome" ((ist.drop 1).headD []) = some 0) →
          sfind "earnings_growth" (calculate_growth_rates s) = none) ∧
        ((sfind "ebitda" ((ist.drop 1).headD []) = none ∨
            sfind "ebitda" ((ist.drop 1).headD []) = some 0) →
          sfind "ebitda_growth" (calculate_growth_rates s) = none)) ∧
      (∀ (info : Info) (hist : List DailyRec), s.info = some info →
        s.hist = some hist →
        (hist.length < 252 →
          sfind "price_change_1y" (calculate_price_metrics s) = none) ∧
        (∀ (h : DailyRec) (t : List DailyRec), hist = h :: t → h.close = 0 →
          sfind "price_change_1y" (calculate_price_metrics s) = none)) := by
  intro s
  refine ⟨?_, ?_, ?_, ?_⟩
  · intro info bs ist hi hb hs
    rw [calculate_profitability_ratios_eq hi hb hs]
    exact ⟨fun h => sfind_roe_profitability_body_fallback h,
      fun h => sfind_roa_profitability_body_fallback h,
      fun h => sfind_margins_profitability_body_rev_guard h⟩
  · intro bs ist hb hs
    rw [calculate_liquidity_ratios_eq hb hs]
    exact ⟨fun h => ⟨sfind_current_liquidity_body_none h, sfind_quick_liquidity_body_none h⟩,
      fun h => sfind_debt_liquidity_body_none h,
      fun h => sfind_interest_liquidity_body_none h⟩
  · intro ist hs
    rw [calculate_growth_rates_eq hs]
    refine ⟨fun h => sfind_revenue_growth_body_none ?_,
      fun h => sfind_earnings_growth_body_none ?_,
      fun h => sfind_ebitda_growth_body_none ?_⟩ <;>
      rcases h with h | h
    · exact Or.inr (Or.inl h)
    · exact Or.inl h
    · exact Or.inr (Or.inl h)
    · exact Or.inl h
    · exact Or.inr (Or.inl h)
    · exact Or.inl h
  · intro info hist hi hh
    rw [calculate_price_metrics_eq hi hh]
    refine ⟨fun hlen => sfind_price_change_body_short hlen, ?_⟩
    rintro h t rfl hz
    by_cases h252 : 252 ≤ (h :: t).length
    · exact sfind_price_change_body_nonpos h252 (le_of_eq hz)
    · exact sfind_price_change_body_short (by omega)

/-- Witness for C1 at a stock whose statement denominators are all zero and
whose snapshot is empty: every affected metric is omitted. -/
theorem claim_C1_witness :
    sfind "roe" (calculate_profitability_ratios stockAllZero) = none ∧
      sfind "current_ratio" (calculate_liquidity_ratios stockAllZero) = none ∧
      sfind "debt_to_equity" (calculate_liquidity_ratios stockAllZero) = none ∧
      sfind "interest_coverage" (calculate_liquidity_ratios stockAllZero) = none ∧
      sfind "revenue_growth" (calculate_growth_rates stockAllZero) = none ∧
      sfind "price_change_1y" (calculate_price_metrics stockAllZero) = none := by
  have h := claim_C1_division_guards stockAllZero
  refine ⟨?_, ?_, ?_, ?_, ?_, ?_⟩
  · exact ((h.1 [] _ _ rfl rfl rfl).1 (Or.inr (by simp [sfind]))).trans rfl
  · exact ((h.2.1 _ _ rfl rfl).1 (Or.inr (by simp [sfind]))).1
  · exact (h.2.1 _ _ rfl rfl).2.1 (Or.inr (by simp [sfind]))
  · exact (h.2.1 _ _ rfl rfl).2.2 (Or.inr (by simp [sfind]))
  · exact (h.2.2.1 _ rfl).1 (Or.inr (by simp [sfind]))
  · exact (h.2.2.2 [] histZero rfl rfl).2 ⟨0, 1000⟩ (List.replicate 251 ⟨10, 1000⟩) rfl rfl

/-- C3: statement-derived profitability values take precedence over the
snapshot fields; each metric falls back to the snapshot field (times 100)
only when it was not computed from the most recent statement period. -/
theorem claim_C3_statement_precedence :
    ∀ (s : Stock) (info : Info) (b0 i0 : Col) (brest irest : Stmt),
      s.info = some info → s.balance_sheet = some (b0 :: brest) →
      s.income_stmt = some (i0 :: irest) →
      (∀ e n : ℚ, sfind "totalStockholderEquity" b0 = some e → e ≠ 0 →
        sfind "netIncome" i0 = some n →
        sfind "roe" (calculate_profitability_ratios s) = some (some (n / e * 100))) ∧
      (sfind "totalStockholderEquity" b0 = none →
        sfind "roe" (calculate_profitability_ratios s) =
          snapshotFallback info "returnOnEquity") ∧
      (∀ a n : ℚ, sfind "totalAssets" b0 = some a → a ≠ 0 →
        sfind "netIncome" i0 = some n →
        sfind "roa" (calculate_profitability_ratios s) = some (some (n / a * 100))) ∧
      (sfind "totalAssets" b0 = none →
        sfind "roa" (calculate_profitability_ratios s) =
          snapshotFallback info "returnOnAssets") ∧
      (List.isEmpty b0 = false →
        (∀ rev gp : ℚ, sfind "totalRevenue" i0 = some rev → rev ≠ 0 →
          sfind "grossProfit" i0 = some gp →
          sfind "gross_margin" (calculate_profitability_ratios s) =
            some (some (gp / rev * 100))) ∧
        (∀ rev oi : ℚ, sfind "totalRevenue" i0 = some rev → rev ≠ 0 →
          sfind "operatingIncome" i0 = some oi →
          sfind "operating_margin" (calculate_profitability_ratios s) =
            some (some (oi / rev * 100))) ∧
        (∀ rev ni : ℚ, sfind "totalRevenue" i0 = some rev → rev ≠ 0 →
          sfind "netIncome" i0 = some ni →
          sfind "profit_margin" (calculate_profitability_ratios s) =
            some (some (ni / rev * 100)))) ∧
      (sfind "grossProfit" i0 = none →
        sfind "gross_margin" (calculate_profitability_ratios s) =
          snapshotFallback info "grossMargins") ∧
      (sfind "operatingIncome" i0 = none →
        sfind "operating_margin" (calculate_profitability_ratios s) =
          snapshotFallback info "operatingMargins") ∧
      (sfind "netIncome" i0 = none →
        sfind "profit_margin" (calculate_profitability_ratios s) =
          snapshotFallback info "profitMargins") := by
  intro s info b0 i0 brest irest hi hb hs
  rw [calculate_profitability_ratios_eq hi hb hs]
  refine ⟨fun e n he hne hn => sfind_roe_profitability_body_computed he hne hn,
    fun he => sfind_roe_profitability_body_fallback (Or.inl (by simpa using he)),
    fun a n ha hne hn => sfind_roa_profitability_body_computed ha hne hn,
    fun ha => sfind_roa_profitability_body_fallback (Or.inl (by simpa using ha)),
    fun hb0 => ⟨fun rev gp hr hne hg =>
        sfind_gross_profitability_body_computed hb0 hr hne hg,
      fun rev oi hr hne ho =>
        sfind_operating_profitability_body_computed hb0 hr hne ho,
      fun rev ni hr hne hn =>
        sfind_profit_profitability_body_computed hb0 hr hne hn⟩,
    fun hg => sfind_gross_profitability_body_fallback (by simpa using hg),
    fun ho => sfind_operating_profitability_body_fallback (by simpa using ho),
    fun hn => sfind_profit_profitability_body_fallback (by simpa using hn)⟩

/-- Witness for C3: with the equity line item absent and a snapshot ROE
field of 0.15, the reported ROE is 15.00. -/
theorem claim_C3_witness :
    sfind "roe" (calculate_profitability_ratios stockRoeFallback) = some (some 15) := by
  have h := (claim_C3_statement_precedence stockRoeFallback
      [("returnOnEquity", some (3 / 20))] [("totalAssets", 1)] [("netIncome", 5)] [] []
      rfl rfl rfl).2.1 (by simp [sfind])
  rw [h]
  norm_num [snapshotFallback, Info.get, sfind]

/-- Helper: a dollar-prefixed formatted number is never the placeholder. -/
theorem format_value_some_dollar_ne (x : ℚ) : format_value (some x) false "$" ≠ "N/A" := by
  simp only [format_value]
  split
  · next h => exact absurd h (by decide)
  · split
    · intro hc
      have := congrArg String.data hc
      simp at this
    · split
      · intro hc
        have := congrArg String.data hc
        simp at this
      · split
        · intro hc
          have := congrArg String.data hc
          simp at this
        · next h => exact absurd trivial h

/-- C8: the formatted summary has a line for every fixed metric key of
every section (43 lines in all, produced totally, never raising), and a key
that is missing from its group's mapping, or present with a null value,
renders as the literal placeholder "N/A" on its line. -/
theorem claim_C8_formatter_na :
    ∀ r : Report,
      format_financial_ratios_summary (some r) =
          String.intercalate "\n" (summaryLines r) ∧
      (summaryLines r).length = 43 ∧
      (((summaryLines r)[6]? =
          some ("Current Price: " ++
            format_value (Dict.get r.price_metrics "current_price") false "$")) ∧
        (Dict.get r.price_metrics "current_price" = none →
          (summaryLines r)[6]? = some "Current Price: N/A")) ∧
      (((summaryLines r)[8]? =
          some ("Price Change (1Y): " ++
            format_value (Dict.get r.price_metrics "price_change_1y") true "$")) ∧
        (Dict.get r.price_metrics "price_change_1y" = none →
          (summaryLines r)[8]? = some "Price Change (1Y): N/A")) ∧
      (((summaryLines r)[9]? =
          some ("Market Cap: " ++
            format_value (Dict.get r.price_metrics "market_cap") false "$")) ∧
        (Dict.get r.price_metrics "market_cap" = none →
          (summaryLines r)[9]? = some "Market Cap: N/A")) ∧
      (((summaryLines r)[13]? =
          some ("P/E Ratio: " ++
            format_value (Dict.get r.valuation_ratios "pe_ratio") false "")) ∧
        (Dict.get r.valuation_ratios "pe_ratio" = none →
          (summaryLines r)[13]? = some "P/E Ratio: N/A")) ∧
      (((summaryLines r)[14]? =
          some ("Forward P/E: " ++
            format_value (Dict.get r.valuation_ratios "forward_pe") false "")) ∧
        (Dict.get r.valuation_ratios "forward_pe" = none →
          (summaryLines r)[14]? = some "Forward P/E: N/A")) ∧
      (((summaryLines r)[15]? =
          some ("P/B Ratio: " ++
            format_value (Dict.get r.valuation_ratios "pb_ratio") false "")) ∧
        (Dict.get r.valuation_ratios "pb_ratio" = none →
          (summaryLines r)[15]? = some "P/B Ratio: N/A")) ∧
      (((summaryLines r)[16]? =
          some ("P/S Ratio: " ++
            format_value (Dict.get r.valuation_ratios "ps_ratio") false "")) ∧
        (Dict.get r.valuation_ratios "ps_ratio" = none →
          (summaryLines r)[16]? = some "P/S Ratio: N/A")) ∧
      (((summaryLines r)[17]? =
          some ("PEG Ratio: " ++
            format_value (Dict.get r.valuation_ratios "peg_ratio") false "")) ∧
        (Dict.get r.valuation_ratios "peg_ratio" = none →
          (summaryLines r)[17]? = some "PEG Ratio: N/A")) ∧
      (((summaryLines r)[18]? =
          some ("EV/EBITDA: " ++
            format_value (Dict.get r.valuation_ratios "ev_to_ebitda") false "")) ∧
        (Dict.get r.valuation_ratios "ev_to_ebitda" = none →
          (summaryLines r)[18]? = some "EV/EBITDA: N/A")) ∧
      (((summaryLines r)[19]? =
          some ("Dividend Yield: " ++
            format_value (Dict.get r.valuation_ratios "dividend_yield") true "")) ∧
        (Dict.get r.valuation_ratios "dividend_yield" = none →
          (summaryLines r)[19]? = some "Dividend Yield: N/A")) ∧
      (((summaryLines r)[23]? =
          some ("Return on Equity (ROE): " ++
            format_value (Dict.get r.profitability_ratios "roe") true "")) ∧
        (Dict.get r.profitability_ratios "roe" = none →
          (summaryLines r)[23]? = some "Return on Equity (ROE): N/A")) ∧
      (((summaryLines r)[24]? =
          some ("Return on Assets (ROA): " ++
            format_value (Dict.get r.profitability_ratios "roa") true "")) ∧
        (Dict.get r.profitability_ratios "roa" = none →
          (summaryLines r)[24]? = some "Return on Assets (ROA): N/A")) ∧
      (((summaryLines r)[25]? =
          some ("Gross Margin: " ++
            format_value (Dict.get r.profitability_ratios "gross_margin") true "")) ∧
        (Dict.get r.profitability_ratios "gross_margin" = none →
          (summaryLines r)[25]? = some "Gross Margin: N/A")) ∧
      (((summaryLines r)[26]? =
          some ("Operating Margin: " ++
            format_value (Dict.get r.profitability_ratios "operating_margin") true "")) ∧
        (Dict.get r.profitability_ratios "operating_margin" = none →
          (summaryLines r)[26]? = some "Operating Margin: N/A")) ∧
      (((summaryLines r)[27]? =
          some ("Profit Margin: " ++
            format_value (Dict.get r.profitability_ratios "profit_margin") true "")) ∧
        (Dict.get r.profitability_ratios "profit_margin" = none →
          (summaryLines r)[27]? = some "Profit Margin: N/A")) ∧
      (((summaryLines r)[31]? =
          some ("Current Ratio: " ++
            format_value (Dict.get r.liquidity_ratios "current_ratio") false "")) ∧
        (Dict.get r.liquidity_ratios "current_ratio" = none →
          (summaryLines r)[31]? = some "Current Ratio: N/A")) ∧
      (((summaryLines r)[32]? =
          some ("Quick Ratio: " ++
            format_value (Dict.get r.liquidity_ratios "quick_ratio") false "")) ∧
        (Dict.get r.liquidity_ratios "quick_ratio" = none →
          (summaryLines r)[32]? = some "Quick Ratio: N/A")) ∧
      (((summaryLines r)[33]? =
          some ("Debt-to-Equity: " ++
            format_value (Dict.get r.liquidity_ratios "debt_to_equity") false "")) ∧
        (Dict.get r.liquidity_ratios "debt_to_equity" = none →
          (summaryLines r)[33]? = some "Debt-to-Equity: N/A")) ∧
      (((summaryLines r)[34]? =
          some ("Interest Coverage: " ++
            format_value (Dict.get r.liquidity_ratios "interest_coverage") false "")) ∧
        (Dict.get r.liquidity_ratios "interest_coverage" = none →
          (summaryLines r)[34]? = some "Interest Coverage: N/A")) ∧
      (((summaryLines r)[38]? =
          some ("Revenue Growth: " ++
            format_value (Dict.get r.growth_rates "revenue_growth") true "")) ∧
        (Dict.get r.growth_rates "revenue_growth" = none →
          (summaryLines r)[38]? = some "Revenue Growth: N/A")) ∧
      (((summaryLines r)[39]? =
          some ("Earnings Growth: " ++
            format_value (Dict.get r.growth_rates "earnings_growth") true "")) ∧
        (Dict.get r.growth_rates "earnings_growth" = none →
          (summaryLines r)[39]? = some "Earnings Growth: N/A")) ∧
      (((summaryLines r)[40]? =
          some ("EBITDA Growth: " ++
            format_value (Dict.get r.growth_rates "ebitda_growth") true "")) ∧
        (Dict.get r.growth_rates "ebitda_growth" = none →
          (summaryLines r)[40]? = some "EBITDA Growth: N/A")) := by
  intro r
  exact ⟨rfl, rfl,
    ⟨rfl, fun h => by
      rw [show (summaryLines r)[6]? =
          some ("Current Price: " ++
            format_value (Dict.get r.price_metrics "current_price") false "$") from rfl, h]
      rfl⟩,
    ⟨rfl, fun h => by
      rw [show (summaryLines r)[8]? =
          some ("Price Change (1Y): " ++
            format_value (Dict.get r.price_metrics "price_change_1y") true "$") from rfl, h]
      rfl⟩,
    ⟨rfl, fun h => by
      rw [show (summaryLines r)[9]? =
          some ("Market Cap: " ++
            format_value (Dict.get r.price_metrics "market_cap") false "$") from rfl, h]
      rfl⟩,
    ⟨rfl, fun h => by
      rw [show (summaryLines r)[13]? =
          some ("P/E Ratio: " ++
            format_value (Dict.get r.valuation_ratios "pe_ratio") false "") from rfl, h]
      rfl⟩,
    ⟨rfl, fun h => by
      rw [show (summaryLines r)[14]? =
          some ("Forward P/E: " ++
            format_value (Dict.get r.valuation_ratios "forward_pe") false "") from rfl, h]
      rfl⟩,
    ⟨rfl, fun h => by
      rw [show (summaryLines r)[15]? =
          some ("P/B Ratio: " ++
            format_value (Dict.get r.valuation_ratios "pb_ratio") false "") from rfl, h]
      rfl⟩,
    ⟨rfl, fun h => by
      rw [show (summaryLines r)[16]? =
          some ("P/S Ratio: " ++
            format_value (Dict.get r.valuation_ratios "ps_ratio") false "") from rfl, h]
      rfl⟩,
    ⟨rfl, fun h => by
      rw [show (summaryLines r)[17]? =
          some ("PEG Ratio: " ++
            format_value (Dict.get r.valuation_ratios "peg_ratio") false "") from rfl, h]
      rfl⟩,
    ⟨rfl, fun h => by
      rw [show (summaryLines r)[18]? =
          some ("EV/EBITDA: " ++
            format_value (Dict.get r.valuation_ratios "ev_to_ebitda") false "") from rfl, h]
      rfl⟩,
    ⟨rfl, fun h => by
      rw [show (summaryLines r)[19]? =
          some ("Dividend Yield: " ++
            format_value (Dict.get r.valuation_ratios "dividend_yield") true "") from rfl, h]
      rfl⟩,
    ⟨rfl, fun h => by
      rw [show (summaryLines r)[23]? =
          some ("Return on Equity (ROE): " ++
            format_value (Dict.get r.profitability_ratios "roe") true "") from rfl, h]
      rfl⟩,
    ⟨rfl, fun h => by
      rw [show (summaryLines r)[24]? =
          some ("Return on Assets (ROA): " ++
            format_value (Dict.get r.profitability_ratios "roa") true "") from rfl, h]
      rfl⟩,
    ⟨rfl, fun h => by
      rw [show (summaryLines r)[25]? =
          some ("Gross Margin: " ++
            format_value (Dict.get r.profitability_ratios "gross_margin") true "") from rfl, h]
      rfl⟩,
    ⟨rfl, fun h => by
      rw [show (summaryLines r)[26]? =
          some ("Operating Margin: " ++
            format_value (Dict.get r.profitability_ratios "operating_margin") true "") from rfl, h]
      rfl⟩,
    ⟨rfl, fun h => by
      rw [show (summaryLines r)[27]? =
          some ("Profit Margin: " ++
            format_value (Dict.get r.profitability_ratios "profit_margin") true "") from rfl, h]
      rfl⟩,
    ⟨rfl, fun h => by
      rw [show (summaryLines r)[31]? =
          some ("Current Ratio: " ++
            format_value (Dict.get r.liquidity_ratios "current_ratio") false "") from rfl, h]
      rfl⟩,
    ⟨rfl, fun h => by
      rw [show (summaryLines r)[32]? =
          some ("Quick Ratio: " ++
            format_value (Dict.get r.liquidity_ratios "quick_ratio") false "") from rfl, h]
      rfl⟩,
    ⟨rfl, fun h => by
      rw [show (summaryLines r)[33]? =
          some ("Debt-to-Equity: " ++
            format_value (Dict.get r.liquidity_ratios "debt_to_equity") false "") from rfl, h]
      rfl⟩,
    ⟨rfl, fun h => by
      rw [show (summaryLines r)[34]? =
          some ("Interest Coverage: " ++
            format_value (Dict.get r.liquidity_ratios "interest_coverage") false "") from rfl, h]
      rfl⟩,
    ⟨rfl, fun h => by
      rw [show (summaryLines r)[38]? =
          some ("Revenue Growth: " ++
            format_value (Dict.get r.growth_rates "revenue_growth") true "") from rfl, h]
      rfl⟩,
    ⟨rfl, fun h => by
      rw [show (summaryLines r)[39]? =
          some ("Earnings Growth: " ++
            format_value (Dict.get r.growth_rates "earnings_growth") true "") from rfl, h]
      rfl⟩,
    ⟨rfl, fun h => by
      rw [show (summaryLines r)[40]? =
          some ("EBITDA Growth: " ++
            format_value (Dict.get r.growth_rates "ebitda_growth") true "") from rfl, h]
      rfl⟩⟩

/-- Witness for C8 at a report whose five group mappings are all empty. -/
theorem claim_C8_witness :
    (summaryLines ⟨"AAPL", [], [], [], [], []⟩)[13]? = some "P/E Ratio: N/A" ∧
      (summaryLines ⟨"AAPL", [], [], [], [], []⟩)[23]? =
        some "Return on Equity (ROE): N/A" := by
  have h := claim_C8_formatter_na ⟨"AAPL", [], [], [], [], []⟩
  exact ⟨(h.2.2.2.2.2.1).2 rfl, (h.2.2.2.2.2.2.2.2.2.2.2.2.1).2 rfl⟩

/-- C10: the 52-Week Range line collapses to a single "N/A" when either
endpoint is missing from the price metrics, and renders "low - high" when
both are present. -/
theorem claim_C10_week_range :
    ∀ r : Report,
      ((Dict.get r.price_metrics "52w_low" = none ∨
          Dict.get r.price_metrics "52w_high" = none) →
        (summaryLines r)[7]? = some "52-Week Range: N/A") ∧
      (∀ lo hi : ℚ, Dict.get r.price_metrics "52w_low" = some lo →
        Dict.get r.price_metrics "52w_high" = some hi →
        (summaryLines r)[7]? =
          some ("52-Week Range: " ++ format_value (some lo) false "$" ++ " - " ++
            format_value (some hi) false "$")) := by
  intro r
  have hline : (summaryLines r)[7]? =
      some
        (if format_value (Dict.get r.price_metrics "52w_low") false "$" ≠ "N/A" ∧
            format_value (Dict.get r.price_metrics "52w_high") false "$" ≠ "N/A" then
          "52-Week Range: " ++ format_value (Dict.get r.price_metrics "52w_low") false "$" ++
            " - " ++ format_value (Dict.get r.price_metrics "52w_high") false "$"
        else "52-Week Range: N/A") := rfl
  constructor
  · intro h
    rw [hline]
    rcases h with h | h <;> rw [h] <;> simp [format_value]
  · intro lo hi hl hh
    rw [hline, hl, hh]
    rw [if_pos ⟨format_value_some_dollar_ne lo, format_value_some_dollar_ne hi⟩]

/-- Witness for C10: one missing endpoint collapses the line even when the
other endpoint is present; two present endpoints render the range. -/
theorem claim_C10_witness :
    (summaryLines ⟨"T", [("52w_low", some 10)], [], [], [], []⟩)[7]? =
        some "52-Week Range: N/A" ∧
      (summaryLines ⟨"T", [("52w_low", some 10), ("52w_high", some 20)], [], [], [], []⟩)[7]? =
        some ("52-Week Range: " ++ format_value (some 10) false "$" ++ " - " ++
          format_value (some 20) false "$") := by
  constructor
  · exact (claim_C10_week_range ⟨"T", [("52w_low", some 10)], [], [], [], []⟩).1
      (Or.inr (by simp [Dict.get, sfind]))
  · exact (claim_C10_week_range
      ⟨"T", [("52w_low", some 10), ("52w_high", some 20)], [], [], [], []⟩).2 10 20
      (by simp [Dict.get, sfind]) (by simp [Dict.get, sfind])

end FinRatios
